import Mathlib

/-!
# Verification of the dummy-hypertension-data generator

Shallow embedding of `usefull_function/create_dummy_data.py` and
`usefull_function/split_data.py`, with theorems checking the
natural-language specification of the repository against the code.

Modelling conventions:
* Machine floats become `ℚ`.  Every numeric constant of the source is kept
  exactly (0.02 = 1/50, 0.45 = 9/20, ...).
* The global numpy generator (`np.random....`) becomes an explicit state
  value `NpRandom` threaded through the pipeline in the order in which the
  Python code consumes it.  The internal numbers of numpy's Mersenne
  twister and its Gaussian transform are not rational; draws are modelled
  by a computable surrogate (an LCG step plus an affine map).  No theorem
  below depends on the numerical distribution of a draw — only on how the
  code routes, reuses and discards the generator state.
* Fallible operations (pandas length-mismatch errors, sampling from an
  empty frame) return `Except PErr`.  The unbounded `while` loop of the
  prevalence calibration becomes a fuel-indexed recursion whose
  fuel-exhaustion outcome models "still running after that many
  iterations"; a result for every fuel value is fuel-exhaustion exactly
  when the Python loop never terminates.
-/

/-! ## The random source (global numpy generator, modelled) -/

/-- State of the global numpy random generator.  `np.random.seed(s)` makes
the state a function of `s` alone; the internal Mersenne-twister word pool
is abstracted to a single natural number. -/
structure NpRandom where
  state : Nat
deriving DecidableEq

/-- `np.random.seed(s)`: reset the global generator from the integer seed. -/
def npSeed (s : Nat) : NpRandom := ⟨s⟩

/-- One generator step (a 16-bit LCG surrogate for the Mersenne twister). -/
def npNext (r : NpRandom) : Nat × NpRandom :=
  let s := (r.state * 25173 + 13849) % 65536
  (s, ⟨s⟩)

/-- A uniform draw in `[0,1)` (surrogate for `np.random.random()`). -/
def nextUnit (r : NpRandom) : ℚ × NpRandom :=
  let p := npNext r
  ((p.1 : ℚ) / 65536, p.2)

/-- A draw from `np.random.normal(mu, sigma)`.  The Gaussian inverse CDF is
not rational; the standard-normal variate is modelled by the computable
surrogate `2u - 1` applied to the uniform draw.  Every claim proved in this
file is independent of this numeric choice. -/
def normalDraw (mu sigma : ℚ) (r : NpRandom) : ℚ × NpRandom :=
  let p := nextUnit r
  (mu + sigma * (2 * p.1 - 1), p.2)

/-- `k` successive draws with a drawing function `f`. -/
def drawN (f : NpRandom → α × NpRandom) : Nat → NpRandom → List α × NpRandom
  | 0, r => ([], r)
  | k + 1, r =>
    let p := f r
    let q := drawN f k p.2
    (p.1 :: q.1, q.2)

/-- Stateful map: one draw-consuming computation per list element, in list
order (models a row-wise `DataFrame.apply` whose lambda draws from the
global generator). -/
def mapRng (f : α → NpRandom → β × NpRandom) : List α → NpRandom → List β × NpRandom
  | [], r => ([], r)
  | x :: xs, r =>
    let p := f x r
    let q := mapRng f xs p.2
    (p.1 :: q.1, q.2)

/-! ## The data model (one row of the generated frame) -/

inductive Gender
  | male
  | female
deriving DecidableEq

inductive Smoking
  | never
  | quit
  | smoker
deriving DecidableEq

inductive LowHigh
  | low
  | high
deriving DecidableEq

/-- One synthetic individual.  Fields that the missing-value injector may
null are `Option`-typed; `id`, `age`, `input_time` and `label_hypertension`
are never nulled (the `age` column is overwritten, never nulled, by the
outlier injector). -/
structure Row where
  id : Nat
  age : ℤ
  gender : Option Gender
  height : Option ℚ
  weight : Option ℚ
  belly : Option ℚ
  smoking : Option Smoking
  exercise : Option LowHigh
  salt : Option LowHigh
  sugar : Option LowHigh
  selfEmotional : Option Bool
  familyHistory : Option Bool
  label : Bool
  inputTimeDays : Nat
deriving DecidableEq

/-- Default row used as the `getD` fallback when indexing row lists. -/
def dRow : Row :=
  { id := 0, age := 0, gender := none, height := none, weight := none,
    belly := none, smoking := none, exercise := none, salt := none,
    sugar := none, selfEmotional := none, familyHistory := none,
    label := false, inputTimeDays := 0 }

/-! ## numpy clip and BMI -/

/-- `np.clip(x, lo, hi)`. -/
def npClip (x lo hi : ℚ) : ℚ := min (max x lo) hi

/-- `bmi = weight_kg / ((height_cm/100) ** 2)` (line 91 of the source). -/
def bmiOf (weight height : ℚ) : ℚ := weight / ((height / 100) ^ 2)

/-! ## generate_weight (source lines 33–43)

The Python function draws `base_bmi` from an age-dependent normal and
returns `base_bmi * (height/100)**2`. -/

/-- The age-dependent `base_bmi` draw of `generate_weight`. -/
def baseBmiDraw (age : ℤ) (r : NpRandom) : ℚ × NpRandom :=
  if age < 35 then normalDraw 28 5 r else normalDraw 25 4 r

/-- `generate_weight(height, age)`: weight derived from the drawn BMI. -/
def generateWeight (height : ℚ) (age : ℤ) (r : NpRandom) : ℚ × NpRandom :=
  let p := baseBmiDraw age r
  (p.1 * (height / 100) ^ 2, p.2)

/-! ## calculate_risk (source lines 87–191)

The row fields read by `calculate_risk`; at the point of the call every
field is populated, so the fields are plain (non-optional) values. -/

structure RiskFeatures where
  age : ℤ
  gender : Gender
  height : ℚ
  weight : ℚ
  belly : ℚ
  smoking : Smoking
  exercise : LowHigh
  salt : LowHigh
  sugar : LowHigh
  familyHistory : Bool
deriving DecidableEq

/-- `is_young = row['age'] < 35`. -/
def isYoung (r : RiskFeatures) : Prop := r.age < 35

instance (r : RiskFeatures) : Decidable (isYoung r) :=
  inferInstanceAs (Decidable (r.age < 35))

/-- Genetic score before normalization (family history, age brackets,
gender; source lines 98–112). -/
def geneticRaw (r : RiskFeatures) : ℚ :=
  (if r.familyHistory then 3 / 2 else 0)
    + (if 60 ≤ r.age then 6 / 5
       else if 45 ≤ r.age then 9 / 10
       else if 35 ≤ r.age then 3 / 5
       else 0)
    + (if r.gender = Gender.male then 1 / 5 else 0)

/-- Lifestyle score before normalization (salt, sugar, exercise, smoking,
each with a young/older constant; source lines 114–133). -/
def lifestyleRaw (r : RiskFeatures) : ℚ :=
  (if r.salt = LowHigh.high then (if isYoung r then 3 / 2 else 6 / 5) else 0)
    + (if r.sugar = LowHigh.high then (if isYoung r then 13 / 10 else 1) else 0)
    + (if r.exercise = LowHigh.low then (if isYoung r then 7 / 5 else 1) else 0)
    + (if r.smoking = Smoking.smoker then (if isYoung r then 6 / 5 else 4 / 5)
       else if r.smoking = Smoking.quit then (if isYoung r then 3 / 5 else 2 / 5)
       else 0)

/-- Health score before normalization (BMI brackets and waist ratio;
source lines 135–150). -/
def healthRaw (r : RiskFeatures) : ℚ :=
  (if 35 ≤ bmiOf r.weight r.height then (if isYoung r then 13 / 10 else 11 / 10)
   else if 30 ≤ bmiOf r.weight r.height then (if isYoung r then 1 else 4 / 5)
   else if 25 ≤ bmiOf r.weight r.height then (if isYoung r then 7 / 10 else 1 / 2)
   else 0)
    + (if 6 / 5 ≤ r.belly / (if r.gender = Gender.female then 88 else 102) then
         (if isYoung r then 6 / 5 else 1)
       else if 1 ≤ r.belly / (if r.gender = Gender.female then 88 else 102) then
         (if isYoung r then 9 / 10 else 7 / 10)
       else 0)

/-- `genetic_score = np.clip(genetic_score / 3.0, 0, 1)` (line 153). -/
def geneticScore (r : RiskFeatures) : ℚ := npClip (geneticRaw r / 3) 0 1

/-- `lifestyle_score = np.clip(lifestyle_score / (5.0 if is_young else 4.0), 0, 1)` (line 154). -/
def lifestyleScore (r : RiskFeatures) : ℚ :=
  npClip (lifestyleRaw r / (if isYoung r then 5 else 4)) 0 1

/-- `health_score = np.clip(health_score / (2.5 if is_young else 2.1), 0, 1)` (line 155). -/
def healthScore (r : RiskFeatures) : ℚ :=
  npClip (healthRaw r / (if isYoung r then 5 / 2 else 21 / 10)) 0 1

/-- The risk value before the `np.random.normal(0, 0.02)` noise term:
age-dependent weighted combination plus the interaction bonuses
(source lines 157–186). -/
def prenoiseRisk (r : RiskFeatures) : ℚ :=
  if isYoung r then
    1 / 4 * geneticScore r + 9 / 20 * lifestyleScore r + 3 / 10 * healthScore r
      + (if 3 / 5 < lifestyleScore r ∧ 3 / 5 < healthScore r then 1 / 5 else 0)
      + (if r.familyHistory ∧ 3 / 5 < lifestyleScore r then 3 / 20 else 0)
  else
    7 / 20 * geneticScore r + 33 / 100 * lifestyleScore r + 8 / 25 * healthScore r
      + (if 7 / 10 < lifestyleScore r ∧ 7 / 10 < healthScore r then 1 / 10 else 0)
      + (if r.familyHistory ∧ 7 / 10 < lifestyleScore r then 1 / 10 else 0)

/-- `calculate_risk`: pre-noise risk plus the noise draw, clipped to
`[0,1]` (source lines 189–191).  The noise value is the caller-supplied
result of the row's `np.random.normal(0, 0.02)` draw. -/
def calculateRisk (r : RiskFeatures) (noise : ℚ) : ℚ :=
  npClip (prenoiseRisk r + noise) 0 1

/-! ## Failure modes of the pipeline -/

/-- The ways a run of `create_dummy_data` can fail to return a frame.
`frameMismatch` and `locMismatch` model pandas `ValueError`s (column
arrays of unequal length; `.loc` assignment with unequal key/value
lengths), `emptyPick` models `.sample(1)` on an empty selection, and
`nonConvergent` is the fuel-exhaustion outcome of the calibration loop:
`create_dummy_data` maps to it for every fuel value exactly when the
Python `while` loop never terminates. -/
inductive PErr
  | frameMismatch
  | locMismatch
  | emptyPick
  | nonConvergent
deriving DecidableEq

/-! ## Outlier injection (source lines 201–212) -/

/-- `np.random.choice(pool, k, replace=False)` modelled by repeatedly
picking a uniformly random element of the remaining pool.  (numpy permutes
instead; no claim depends on the distribution, only on the result being
`k` distinct elements of the pool.) -/
def sampleNoReplace : Nat → List Nat → NpRandom → List Nat × NpRandom
  | 0, _, r => ([], r)
  | k + 1, pool, r =>
    let p := npNext r
    let i := p.1 % pool.length
    let q := sampleNoReplace k (pool.eraseIdx i) p.2
    (pool.getD i 0 :: q.1, q.2)

/-- `np.random.choice(vals, k)` (with replacement): `k` uniform picks. -/
def choiceN (vals : List α) (dflt : α) : Nat → NpRandom → List α × NpRandom
  | 0, r => ([], r)
  | k + 1, r =>
    let p := npNext r
    let q := choiceN vals dflt k p.2
    (vals.getD (p.1 % vals.length) dflt :: q.1, q.2)

/-- Python slice `xs[a:b]`. -/
def sliceList (a b : Nat) (xs : List α) : List α := (xs.drop a).take (b - a)

/-- The cell writes of one `data.loc[keys, col] = values` statement:
value `k` is written into the designated column of row `keys[k]`. -/
def writeCells (upd : Row → α → Row) : List Row → List Nat → List α → List Row
  | rows, [], _ => rows
  | rows, _, [] => rows
  | rows, i :: is, v :: vs =>
    writeCells upd (rows.set i (upd (rows.getD i dRow) v)) is vs

/-- `data.loc[keys, col] = values`: pandas raises a `ValueError` when the
key and value lists have different lengths, otherwise writes pairwise. -/
def assignColumn (upd : Row → α → Row) (rows : List Row) (idxs : List Nat)
    (vals : List α) : Except PErr (List Row) :=
  if idxs.length = vals.length then .ok (writeCells upd rows idxs vals)
  else .error .locMismatch

/-- Outlier value pools of the four designated columns (lines 205–212). -/
def weightOutlierVals : List ℚ := [1, 2, 800, 1000]

def heightOutlierVals : List ℚ := [10, 15, 350, 400]

def bellyOutlierVals : List ℚ := [10, 15, 400, 500]

def ageOutlierVals : List ℤ := [1, 2, 3, 120, 130, 140]

def setWeightVal (r : Row) (v : ℚ) : Row := { r with weight := some v }

def setHeightVal (r : Row) (v : ℚ) : Row := { r with height := some v }

def setBellyVal (r : Row) (v : ℚ) : Row := { r with belly := some v }

def setAgeVal (r : Row) (v : ℤ) : Row := { r with age := v }

/-- `n_outliers = int(n_samples * 0.02)` (line 202); `0.02` is `1/50`. -/
def nOutliersOf (n : Nat) : Nat := n / 50

/-- The drawn outlier index list (line 203). -/
def outlierPick (n : Nat) (r : NpRandom) : List Nat × NpRandom :=
  sampleNoReplace (nOutliersOf n) (List.range n) r

/-- Source lines 201–212: pick `int(0.02 n)` distinct row indices, then
overwrite one column per contiguous quartile of the index list.  The
fourth slice is `outlier_indices[3*n_outliers//4:]` — to the END of the
list — while its value array has `n_outliers//4` elements, so pandas
raises whenever the two lengths differ. -/
def injectOutliers (n : Nat) (rows : List Row) (r : NpRandom) :
    Except PErr (List Row × NpRandom) := do
  let nOut := nOutliersOf n
  let pick := outlierPick n r
  let outIdx := pick.1
  let wv := choiceN weightOutlierVals 0 (nOut / 4) pick.2
  let hv := choiceN heightOutlierVals 0 (nOut / 4) wv.2
  let bv := choiceN bellyOutlierVals 0 (nOut / 4) hv.2
  let av := choiceN ageOutlierVals 0 (nOut / 4) bv.2
  let rows1 ← assignColumn setWeightVal rows (sliceList 0 (nOut / 4) outIdx) wv.1
  let rows2 ← assignColumn setHeightVal rows1 (sliceList (nOut / 4) (nOut / 2) outIdx) hv.1
  let rows3 ← assignColumn setBellyVal rows2 (sliceList (nOut / 2) (3 * nOut / 4) outIdx) bv.1
  let rows4 ← assignColumn setAgeVal rows3 (outIdx.drop (3 * nOut / 4)) av.1
  return (rows4, av.2)

/-! ## Prevalence calibration (source lines 237–244) -/

/-- `mean(label_hypertension)` of a label column. -/
def listMean (labels : List Bool) : ℚ := (labels.count true : ℚ) / labels.length

/-- Index list of the rows whose label equals `b`
(`data[data['label_hypertension'] == b].index`). -/
def idxWhere (b : Bool) : List Bool → Nat → List Nat
  | [], _ => []
  | x :: xs, i =>
    if x = b then i :: idxWhere b xs (i + 1) else idxWhere b xs (i + 1)

/-- `.sample(1).index[0]`: a uniformly random element of a row-index
selection; pandas raises on an empty selection. -/
def pickRandomRow (r : NpRandom) (xs : List Nat) : Option (Nat × NpRandom) :=
  match xs with
  | [] => none
  | _ :: _ =>
    let p := npNext r
    some (xs.getD (p.1 % xs.length) 0, p.2)

/-- One iteration body of the calibration loop (lines 239–244): if the
mean exceeds the target flip a random positive row to 0, otherwise flip a
random negative row to 1.  `none` models the `ValueError` raised by
sampling from an empty selection. -/
def flipOne (t : ℚ) (labels : List Bool) (r : NpRandom) :
    Option (List Bool × NpRandom) :=
  if t < listMean labels then
    (pickRandomRow r (idxWhere true labels 0)).map
      (fun p => (labels.set p.1 false, p.2))
  else
    (pickRandomRow r (idxWhere false labels 0)).map
      (fun p => (labels.set p.1 true, p.2))

/-- Outcome of running the calibration loop with a given amount of fuel. -/
inductive CalibOut
  | done : List Bool → NpRandom → CalibOut
  | pickFailed : CalibOut
  | outOfFuel : CalibOut
deriving DecidableEq

/-- The `while abs(data['label_hypertension'].mean() - target) > 0.01`
loop (line 238).  An empty frame exits at once (numpy: the mean of an
empty column is NaN and `NaN > 0.01` is `False`).  The Python loop has no
iteration bound; `outOfFuel` means the loop is still running after `fuel`
iterations. -/
def calibLoop (t : ℚ) : Nat → List Bool → NpRandom → CalibOut
  | fuel, labels, r =>
    if labels.isEmpty then .done labels r
    else if |listMean labels - t| ≤ 1 / 100 then .done labels r
    else
      match fuel with
      | 0 => .outOfFuel
      | fuel + 1 =>
        match flipOne t labels r with
        | none => .pickFailed
        | some p => calibLoop t fuel p.1 p.2

/-! ## The pipeline stages -/

/-- Mutable pipeline state: the frame under construction, the per-row risk
probabilities of step 7, and the global generator state. -/
structure PipeSt where
  rows : List Row
  probs : List ℚ
  rng : NpRandom
deriving DecidableEq

/-- `np.random.choice(['Male','Female'])`. -/
def genderDraw (r : NpRandom) : Gender × NpRandom :=
  let p := nextUnit r
  (if p.1 < 1 / 2 then Gender.male else Gender.female, p.2)

/-- `np.random.binomial(1, p)` for one cell. -/
def bernoulliDraw (p : ℚ) (r : NpRandom) : Bool × NpRandom :=
  let q := nextUnit r
  (decide (q.1 < p), q.2)

/-- Source step 1 (lines 14–21): the age column — two half-sized normal
cohorts concatenated, clipped to `[15, 90]`, truncated to integers
(`.astype(int)`; every clipped value is positive, so truncation is the
floor). -/
def ageColumn (n : Nat) (r : NpRandom) : List ℤ × NpRandom :=
  let ya := drawN (normalDraw 25 5) (n / 2) r
  let oa := drawN (normalDraw 50 15) (n / 2) ya.2
  ((ya.1 ++ oa.1).map (fun a => ⌊npClip a 15 90⌋), oa.2)

/-- Source step 2 (lines 26–30): `np.where` on the gender column; numpy
draws the full male and the full female height array before selecting. -/
def heightColumn (genders : List Gender) (n : Nat) (r : NpRandom) :
    List ℚ × NpRandom :=
  let mh := drawN (normalDraw 175 7) n r
  let fh := drawN (normalDraw 162 6) n mh.2
  (List.zipWith (fun g p => if g = Gender.male then p.1 else p.2)
    genders (mh.1.zip fh.1), fh.2)

/-- Source step 3 (lines 42–43): one `generate_weight` call per row. -/
def weightColumn (heights : List ℚ) (ages : List ℤ) (r : NpRandom) :
    List ℚ × NpRandom :=
  mapRng (fun ha r2 => generateWeight ha.1 ha.2 r2) (heights.zip ages) r

/-- Source step 4 (lines 46–48): belly circumference per row. -/
def bellyColumn (weights : List ℚ) (ages : List ℤ) (r : NpRandom) :
    List ℚ × NpRandom :=
  mapRng
    (fun wa r2 =>
      let p := normalDraw 0 5 r2
      (wa.1 * (1 / 2) + (if wa.2 < 35 then 60 else 50) + p.1, p.2))
    (weights.zip ages) r

/-- FeatureSampler (source steps 1–4, lines 13–48): ages, gender,
gender-conditioned height, BMI-derived weight, and belly circumference.
pandas raises when the column arrays passed to `pd.DataFrame` have unequal
lengths (the age array has `2*(n//2)` entries). -/
def featureStage (n : Nat) (s : PipeSt) : Except PErr PipeSt :=
  let ages := ageColumn n s.rng
  if ages.1.length = n then
    let gs := drawN genderDraw n ages.2
    let hs := heightColumn gs.1 n gs.2
    let ws := weightColumn hs.1 ages.1 hs.2
    let bs := bellyColumn ws.1 ages.1 ws.2
    .ok { s with
      rows := (List.range n).map (fun i =>
        { dRow with
          id := i + 1
          age := ages.1.getD i 0
          gender := some (gs.1.getD i Gender.male)
          height := some (hs.1.getD i 0)
          weight := some (ws.1.getD i 0)
          belly := some (bs.1.getD i 0) })
      rng := bs.2 }
  else .error .frameMismatch

/-- Smoking probabilities `[never, quit, smoker]` of `get_lifestyle_probs`
(lines 51–64), as cumulative thresholds for one uniform draw. -/
def smokingDraw (age : ℤ) (r : NpRandom) : Smoking × NpRandom :=
  let u := nextUnit r
  if age < 35 then
    (if u.1 < 2 / 5 then Smoking.never
     else if u.1 < 2 / 5 + 1 / 10 then Smoking.quit
     else Smoking.smoker, u.2)
  else
    (if u.1 < 3 / 5 then Smoking.never
     else if u.1 < 3 / 5 + 3 / 10 then Smoking.quit
     else Smoking.smoker, u.2)

/-- A `['low','high']` draw with the given probability of `'low'`. -/
def lowHighDraw (pLow : ℚ) (r : NpRandom) : LowHigh × NpRandom :=
  let u := nextUnit r
  (if u.1 < pLow then LowHigh.low else LowHigh.high, u.2)

/-- LifestyleSampler (source steps 5–6, lines 50–84): four age-conditioned
categorical columns, one full-frame pass each, then the two binary
columns. -/
def lifestyleStage (s : PipeSt) : Except PErr PipeSt :=
  let sm := mapRng (fun row r => smokingDraw row.age r) s.rows s.rng
  let rows1 := List.zipWith (fun row v => { row with smoking := some v }) s.rows sm.1
  let ex := mapRng
    (fun row r => lowHighDraw (if row.age < 35 then 7 / 10 else 2 / 5) r) rows1 sm.2
  let rows2 := List.zipWith (fun row v => { row with exercise := some v }) rows1 ex.1
  let sa := mapRng
    (fun row r => lowHighDraw (if row.age < 35 then 3 / 10 else 3 / 5) r) rows2 ex.2
  let rows3 := List.zipWith (fun row v => { row with salt := some v }) rows2 sa.1
  let su := mapRng
    (fun row r => lowHighDraw (if row.age < 35 then 3 / 10 else 3 / 5) r) rows3 sa.2
  let rows4 := List.zipWith (fun row v => { row with sugar := some v }) rows3 su.1
  let se := drawN (bernoulliDraw (1 / 2)) rows4.length su.2
  let rows5 := List.zipWith (fun row v => { row with selfEmotional := some v }) rows4 se.1
  let fa := drawN (bernoulliDraw (3 / 10)) rows5.length se.2
  let rows6 := List.zipWith (fun row v => { row with familyHistory := some v }) rows5 fa.1
  .ok { s with rows := rows6, rng := fa.2 }

/-- The `RiskFeatures` view of a row.  Every field is populated when
`calculate_risk` runs (missing values are injected later), so the `getD`
defaults are never exercised on the pipeline's own rows. -/
def featuresOf (row : Row) : RiskFeatures :=
  { age := row.age
    gender := row.gender.getD Gender.male
    height := row.height.getD 0
    weight := row.weight.getD 0
    belly := row.belly.getD 0
    smoking := row.smoking.getD Smoking.never
    exercise := row.exercise.getD LowHigh.low
    salt := row.salt.getD LowHigh.low
    sugar := row.sugar.getD LowHigh.low
    familyHistory := row.familyHistory.getD false }

/-- RiskScorer (source line 194): one `calculate_risk` call per row, each
consuming one `np.random.normal(0, 0.02)` draw. -/
def riskStage (s : PipeSt) : Except PErr PipeSt :=
  let ps := mapRng
    (fun row r =>
      let nz := normalDraw 0 (1 / 50) r
      (calculateRisk (featuresOf row) nz.1, nz.2))
    s.rows s.rng
  .ok { s with probs := ps.1, rng := ps.2 }

/-- A computable rational surrogate for the real exponential (truncated
Taylor series), used only inside the sigmoid whose output feeds a
Bernoulli draw; no claim depends on its values. -/
def expQ (x : ℚ) : ℚ :=
  1 + x + x ^ 2 / 2 + x ^ 3 / 6 + x ^ 4 / 24 + x ^ 5 / 120 + x ^ 6 / 720

/-- `1 / (1 + np.exp(-12 * (p - 0.5)))` (line 197). -/
def sigmoidSteep (p : ℚ) : ℚ := 1 / (1 + expQ (-12 * (p - 1 / 2)))

/-- LabelSampler (source lines 196–199): sharpen the probabilities with the
steep sigmoid, then draw `label_hypertension ~ Bernoulli(p')` per row. -/
def labelStage (s : PipeSt) : Except PErr PipeSt :=
  let ps := s.probs.map sigmoidSteep
  let ls := mapRng (fun p r => bernoulliDraw p r) ps s.rng
  .ok { s with
    rows := List.zipWith (fun row l => { row with label := l }) s.rows ls.1
    rng := ls.2 }

/-- OutlierInjector as a pipeline stage (source step 8). -/
def outlierStage (n : Nat) (s : PipeSt) : Except PErr PipeSt :=
  (injectOutliers n s.rows s.rng).map (fun p => { s with rows := p.1, rng := p.2 })

/-- Step 9 (lines 214–217): `input_time` as a uniformly random day offset
`np.random.randint(0, 365)` from 2023-01-01, one draw per row. -/
def timestampStage (s : PipeSt) : Except PErr PipeSt :=
  let ds := drawN (fun r => let p := npNext r; (p.1 % 365, p.2)) s.rows.length s.rng
  .ok { s with
    rows := List.zipWith (fun row d => { row with inputTimeDays := d }) s.rows ds.1
    rng := ds.2 }

/-- The columns of the `missing_probs` table (lines 220–231). -/
inductive MissCol
  | selfEmotional
  | sugar
  | salt
  | exercise
  | smoking
  | gender
  | weight
  | height
  | belly
  | familyHistory
deriving DecidableEq

/-- Overwrite one cell with `np.nan`. -/
def clearCol : MissCol → Row → Row
  | .selfEmotional, r => { r with selfEmotional := none }
  | .sugar, r => { r with sugar := none }
  | .salt, r => { r with salt := none }
  | .exercise, r => { r with exercise := none }
  | .smoking, r => { r with smoking := none }
  | .gender, r => { r with gender := none }
  | .weight, r => { r with weight := none }
  | .height, r => { r with height := none }
  | .belly, r => { r with belly := none }
  | .familyHistory, r => { r with familyHistory := none }

/-- The `missing_probs` dictionary in source order (lines 220–231). -/
def missingProbs : List (MissCol × ℚ) :=
  [(.selfEmotional, 9 / 10), (.sugar, 1 / 20), (.salt, 1 / 20),
   (.exercise, 7 / 100), (.smoking, 3 / 100), (.gender, 1 / 50),
   (.weight, 3 / 100), (.height, 3 / 100), (.belly, 3 / 100),
   (.familyHistory, 3 / 100)]

/-- One column pass of step 10: `mask = np.random.random(len(data)) < prob;
data.loc[mask, col] = np.nan`. -/
def missingPass (cp : MissCol × ℚ) (rows : List Row) (r : NpRandom) :
    List Row × NpRandom :=
  let us := drawN nextUnit rows.length r
  (List.zipWith (fun row u => if u < cp.2 then clearCol cp.1 row else row) rows us.1,
   us.2)

/-- MissingValueInjector (source step 10): the ten column passes in
dictionary order. -/
def missingStage (s : PipeSt) : Except PErr PipeSt :=
  let p := missingProbs.foldl (fun acc cp => missingPass cp acc.1 acc.2)
    (s.rows, s.rng)
  .ok { s with rows := p.1, rng := p.2 }

/-- Write a calibrated label column back into the frame. -/
def applyLabels (rows : List Row) (ls : List Bool) : List Row :=
  List.zipWith (fun row l => { row with label := l }) rows ls

/-- PrevalenceCalibrator as a pipeline stage (source step 11). -/
def prevalenceStage (fuel : Nat) (t : ℚ) (s : PipeSt) : Except PErr PipeSt :=
  match calibLoop t fuel (s.rows.map Row.label) s.rng with
  | .done ls r => .ok { s with rows := applyLabels s.rows ls, rng := r }
  | .pickFailed => .error .emptyPick
  | .outOfFuel => .error .nonConvergent

/-! ## The pipeline -/

/-- The named pipeline stages of the specification (plus the timestamp
assignment of source step 9, which the specification's stage list does not
name). -/
inductive Stage
  | featureSampler
  | lifestyleSampler
  | riskScorer
  | labelSampler
  | prevalenceCalibrator
  | outlierInjector
  | timestamper
  | missingValueInjector
deriving DecidableEq, BEq

/-- Dispatch one stage. -/
def applyStage (n fuel : Nat) (t : ℚ) : Stage → PipeSt → Except PErr PipeSt
  | .featureSampler, s => featureStage n s
  | .lifestyleSampler, s => lifestyleStage s
  | .riskScorer, s => riskStage s
  | .labelSampler, s => labelStage s
  | .prevalenceCalibrator, s => prevalenceStage fuel t s
  | .outlierInjector, s => outlierStage n s
  | .timestamper, s => timestampStage s
  | .missingValueInjector, s => missingStage s

/-- Run a list of stages in order, stopping at the first failure. -/
def runStages (n fuel : Nat) (t : ℚ) : List Stage → PipeSt → Except PErr PipeSt
  | [], s => .ok s
  | st :: rest, s => (applyStage n fuel t st s).bind (runStages n fuel t rest)

/-- The stage order of `create_dummy_data`, read off the statement order of
source lines 13–244: features (steps 1–4), lifestyle (5–6), risk scoring
(7), labels, outliers (8), timestamps (9), missing values (10), and the
prevalence adjustment (11) last. -/
def stageOrder : List Stage :=
  [.featureSampler, .lifestyleSampler, .riskScorer, .labelSampler,
   .outlierInjector, .timestamper, .missingValueInjector,
   .prevalenceCalibrator]

/-- Modelled from the spec: the stage order §2 claims (1→7, the
prevalence calibrator fifth, before both injectors). -/
def specClaimedOrder : List Stage :=
  [.featureSampler, .lifestyleSampler, .riskScorer, .labelSampler,
   .prevalenceCalibrator, .outlierInjector, .missingValueInjector]

/-- `create_dummy_data(n_samples, target_prevalence)` (source lines 6–246).
The first statement of the function body is `np.random.seed(42)`, so the
run starts from the fixed state `npSeed 42`.  `fuel` bounds the
calibration loop; the Python loop is unbounded, and a `nonConvergent`
result for every fuel value means the Python call never returns. -/
def createDummyData (fuel n : Nat) (t : ℚ) : Except PErr (List Row) :=
  (runStages n fuel t stageOrder { rows := [], probs := [], rng := npSeed 42 }).map
    PipeSt.rows

/-- `create_dummy_data` as seen by a caller who has put the global numpy
generator into an arbitrary state `ambient` (for example by calling
`np.random.seed` with a seed of their choice) before the call: the hardcoded
`np.random.seed(42)` overwrites that state, so `ambient` is discarded. -/
def createDummyDataAmbient (ambient : NpRandom) (fuel n : Nat) (t : ℚ) :
    Except PErr (List Row) :=
  createDummyData fuel n t

/-! ## The split utility (usefull_function/split_data.py) -/

/-- The input table of `split_data`, reduced to what the utility's control
flow inspects: the column names and the row count. -/
structure CsvTable where
  cols : List String
  nRows : Nat
deriving DecidableEq

/-- How a `split_data` call ends, as seen by its caller. -/
inductive SplitOutcome
  | returnedNone
  | raised
  | ok : Nat → Nat → SplitOutcome
deriving DecidableEq

/-- `split_data` (source lines 5–74).  A missing input file is caught
(`except FileNotFoundError`), an error message is printed and `None` is
returned (line 30–32).  A missing `label_hypertension` column raises a
`KeyError` inside the second `try`; the handler prints and then re-raises
(lines 71–73).  Otherwise `train_test_split(test_size=0.3)` yields
`ceil(0.3 n)` test rows and the rest for training. -/
def splitData (file : Option CsvTable) (randomState : Nat) : SplitOutcome :=
  match file with
  | none => .returnedNone
  | some df =>
    if "label_hypertension" ∈ df.cols then
      let nTest := (3 * df.nRows + 9) / 10
      .ok (df.nRows - nTest) nTest
    else .raised

/-! ## Witness data: the concrete run with fuel 20, N = 2, t = 1/2 -/

def wRow1a : Row :=
  { dRow with
      id := 1
      age := 23
      gender := some Gender.male
      height := some ((5861121 : ℚ)/32768)
      weight := some ((35548180354208730159 : ℚ)/351843720888320000)
      belly := some ((75726847789011930159 : ℚ)/703687441776640000) }

def wRow2a : Row :=
  { dRow with
      id := 2
      age := 54
      gender := some Gender.male
      height := some ((1404417 : ℚ)/8192)
      weight := some ((10214992842115131 : ℚ)/137438953472000)
      belly := some ((24773505912195131 : ℚ)/274877906944000) }

def wS1 : PipeSt := { rows := [wRow1a, wRow2a], probs := [], rng := ⟨52190⟩ }

def wRow1b : Row :=
  { wRow1a with
      smoking := some Smoking.smoker
      exercise := some LowHigh.low
      salt := some LowHigh.high
      sugar := some LowHigh.low
      selfEmotional := some true
      familyHistory := some false }

def wRow2b : Row :=
  { wRow2a with
      smoking := some Smoking.quit
      exercise := some LowHigh.high
      salt := some LowHigh.low
      sugar := some LowHigh.high
      selfEmotional := some true
      familyHistory := some false }

def wS2 : PipeSt := { rows := [wRow1b, wRow2b], probs := [], rng := ⟨34514⟩ }

def wProbs : List ℚ := [(19865437 : ℚ)/24576000, (6569837 : ℚ)/21504000]

def wS3 : PipeSt := { rows := [wRow1b, wRow2b], probs := wProbs, rng := ⟨9000⟩ }

def wS4 : PipeSt :=
  { rows := [{ wRow1b with label := true }, { wRow2b with label := true }],
    probs := wProbs, rng := ⟨4686⟩ }

def wS6 : PipeSt :=
  { rows := [{ wRow1b with label := true, inputTimeDays := 237 },
             { wRow2b with label := true, inputTimeDays := 289 }],
    probs := wProbs, rng := ⟨29124⟩ }

def wRow1c : Row :=
  { wRow1b with
      label := true
      inputTimeDays := 237
      gender := none
      exercise := none
      selfEmotional := none }

def wRow2c : Row :=
  { wRow2b with
      label := true
      inputTimeDays := 289
      selfEmotional := none }

def wS7 : PipeSt := { rows := [wRow1c, wRow2c], probs := wProbs, rng := ⟨17296⟩ }

def wFinalRows : List Row := [wRow1c, { wRow2c with label := false }]

def wS8 : PipeSt := { rows := wFinalRows, probs := wProbs, rng := ⟨50409⟩ }

/-- The scenario row of C8 (age 20, family history, all bad habits,
height 170, weight 90).  The claim does not fix `gender` or
`belly_circumference_cm`; the theorem covers both genders and uses the
generator's noise-free belly value `90 * 0.5 + 60 = 105` (source line 47). -/
def c8row (g : Gender) : RiskFeatures :=
  { age := 20, gender := g, height := 170, weight := 90, belly := 105,
    smoking := Smoking.smoker, exercise := LowHigh.low, salt := LowHigh.high,
    sugar := LowHigh.high, familyHistory := true }

/-- A table with no `label_hypertension` column, for the split utility. -/
def c9table : CsvTable := { cols := ["id", "age"], nRows := 100 }

/-- `n` blank rows with sequential ids (a stand-in frame for exercising the
outlier injector on its own). -/
def cRows (n : Nat) : List Row := (List.range n).map (fun i => { dRow with id := i + 1 })

/-- The four contiguous quartile slices of the outlier index list, exactly
as sliced on source lines 205–212 (the fourth runs to the end of the
list). -/
def outlierSlices (n : Nat) (r : NpRandom) :
    List Nat × List Nat × List Nat × List Nat :=
  let nOut := nOutliersOf n
  let idx := (outlierPick n r).1
  (sliceList 0 (nOut / 4) idx, sliceList (nOut / 4) (nOut / 2) idx,
   sliceList (nOut / 2) (3 * nOut / 4) idx, idx.drop (3 * nOut / 4))

/-! Theorems evaluating the pipeline on the witness run.  The `npw…`
lemmas record the surrogate generator's state chain. -/

theorem npw42 : npNext ⟨42⟩ = (22539, ⟨22539⟩) := rfl
theorem npw22539 : npNext ⟨22539⟩ = (42944, ⟨42944⟩) := rfl
theorem npw42944 : npNext ⟨42944⟩ = (26841, ⟨26841⟩) := rfl
theorem npw26841 : npNext ⟨26841⟩ = (6182, ⟨6182⟩) := rfl
theorem npw6182 : npNext ⟨6182⟩ = (50871, ⟨50871⟩) := rfl
theorem npw50871 : npNext ⟨50871⟩ = (16092, ⟨16092⟩) := rfl
theorem npw16092 : npNext ⟨16092⟩ = (19749, ⟨19749⟩) := rfl
theorem npw19749 : npNext ⟨19749⟩ = (64866, ⟨64866⟩) := rfl
theorem npw64866 : npNext ⟨64866⟩ = (56227, ⟨56227⟩) := rfl
theorem npw56227 : npNext ⟨56227⟩ = (35128, ⟨35128⟩) := rfl
theorem npw35128 : npNext ⟨35128⟩ = (13745, ⟨13745⟩) := rfl
theorem npw13745 : npNext ⟨13745⟩ = (52190, ⟨52190⟩) := rfl
theorem npw52190 : npNext ⟨52190⟩ = (58063, ⟨58063⟩) := rfl
theorem npw58063 : npNext ⟨58063⟩ = (49876, ⟨49876⟩) := rfl
theorem npw49876 : npNext ⟨49876⟩ = (3709, ⟨3709⟩) := rfl
theorem npw3709 : npNext ⟨3709⟩ = (57242, ⟨57242⟩) := rfl
theorem npw57242 : npNext ⟨57242⟩ = (26683, ⟨26683⟩) := rfl
theorem npw26683 : npNext ⟨26683⟩ = (26544, ⟨26544⟩) := rfl
theorem npw26544 : npNext ⟨26544⟩ = (905, ⟨905⟩) := rfl
theorem npw905 : npNext ⟨905⟩ = (54422, ⟨54422⟩) := rfl
theorem npw54422 : npNext ⟨54422⟩ = (14311, ⟨14311⟩) := rfl
theorem npw14311 : npNext ⟨14311⟩ = (13260, ⟨13260⟩) := rfl
theorem npw13260 : npNext ⟨13260⟩ = (32981, ⟨32981⟩) := rfl
theorem npw32981 : npNext ⟨32981⟩ = (34514, ⟨34514⟩) := rfl
theorem npw34514 : npNext ⟨34514⟩ = (24019, ⟨24019⟩) := rfl
theorem npw24019 : npNext ⟨24019⟩ = (9000, ⟨9000⟩) := rfl
theorem npw9000 : npNext ⟨9000⟩ = (12897, ⟨12897⟩) := rfl
theorem npw12897 : npNext ⟨12897⟩ = (4686, ⟨4686⟩) := rfl
theorem npw4686 : npNext ⟨4686⟩ = (9727, ⟨9727⟩) := rfl
theorem npw9727 : npNext ⟨9727⟩ = (29124, ⟨29124⟩) := rfl
theorem npw29124 : npNext ⟨29124⟩ = (1069, ⟨1069⟩) := rfl
theorem npw1069 : npNext ⟨1069⟩ = (54026, ⟨54026⟩) := rfl
theorem npw54026 : npNext ⟨54026⟩ = (7275, ⟨7275⟩) := rfl
theorem npw7275 : npNext ⟨7275⟩ = (39840, ⟨39840⟩) := rfl
theorem npw39840 : npNext ⟨39840⟩ = (8761, ⟨8761⟩) := rfl
theorem npw8761 : npNext ⟨8761⟩ = (25862, ⟨25862⟩) := rfl
theorem npw25862 : npNext ⟨25862⟩ = (3351, ⟨3351⟩) := rfl
theorem npw3351 : npNext ⟨3351⟩ = (23740, ⟨23740⟩) := rfl
theorem npw23740 : npNext ⟨23740⟩ = (63621, ⟨63621⟩) := rfl
theorem npw63621 : npNext ⟨63621⟩ = (42050, ⟨42050⟩) := rfl
theorem npw42050 : npNext ⟨42050⟩ = (1027, ⟨1027⟩) := rfl
theorem npw1027 : npNext ⟨1027⟩ = (45336, ⟨45336⟩) := rfl
theorem npw45336 : npNext ⟨45336⟩ = (13073, ⟨13073⟩) := rfl
theorem npw13073 : npNext ⟨13073⟩ = (44222, ⟨44222⟩) := rfl
theorem npw44222 : npNext ⟨44222⟩ = (19759, ⟨19759⟩) := rfl
theorem npw19759 : npNext ⟨19759⟩ = (54452, ⟨54452⟩) := rfl
theorem npw54452 : npNext ⟨54452⟩ = (48605, ⟨48605⟩) := rfl
theorem npw48605 : npNext ⟨48605⟩ = (55930, ⟨55930⟩) := rfl
theorem npw55930 : npNext ⟨55930⟩ = (29851, ⟨29851⟩) := rfl
theorem npw29851 : npNext ⟨29851⟩ = (17296, ⟨17296⟩) := rfl
theorem npw17296 : npNext ⟨17296⟩ = (50409, ⟨50409⟩) := rfl


theorem genderMF : (Gender.male = Gender.female) = False := by simp

theorem genderFM : (Gender.female = Gender.male) = False := by simp

theorem lowHighLH : (LowHigh.low = LowHigh.high) = False := by simp

theorem lowHighHL : (LowHigh.high = LowHigh.low) = False := by simp

theorem smokingQS : (Smoking.quit = Smoking.smoker) = False := by simp

theorem smokingSQ : (Smoking.smoker = Smoking.quit) = False := by simp

theorem smokingNS : (Smoking.never = Smoking.smoker) = False := by simp

theorem smokingNQ : (Smoking.never = Smoking.quit) = False := by simp

theorem whAges : ageColumn 2 ⟨42⟩ = ([23, 54], ⟨42944⟩) := by
  norm_num [ageColumn, drawN, normalDraw, nextUnit, npClip, npw42, npw22539, npw42944, npw26841, npw6182, npw50871, npw16092, npw19749, npw64866, npw56227, npw35128, npw13745, npw52190, npw58063, npw49876, npw3709, npw57242, npw26683, npw26544, npw905, npw54422, npw14311, npw13260, npw32981, npw34514, npw24019, npw9000, npw12897, npw4686, npw9727, npw29124, npw1069, npw54026, npw7275, npw39840, npw8761, npw25862, npw3351, npw23740, npw63621, npw42050, npw1027, npw45336, npw13073, npw44222, npw19759, npw54452, npw48605, npw55930, npw29851, npw17296]

theorem whGender : drawN genderDraw 2 ⟨42944⟩ = ([Gender.male, Gender.male], ⟨6182⟩) := by
  norm_num [drawN, genderDraw, nextUnit, npw42, npw22539, npw42944, npw26841, npw6182, npw50871, npw16092, npw19749, npw64866, npw56227, npw35128, npw13745, npw52190, npw58063, npw49876, npw3709, npw57242, npw26683, npw26544, npw905, npw54422, npw14311, npw13260, npw32981, npw34514, npw24019, npw9000, npw12897, npw4686, npw9727, npw29124, npw1069, npw54026, npw7275, npw39840, npw8761, npw25862, npw3351, npw23740, npw63621, npw42050, npw1027, npw45336, npw13073, npw44222, npw19759, npw54452, npw48605, npw55930, npw29851, npw17296]

theorem whHeights :
    heightColumn [Gender.male, Gender.male] 2 ⟨6182⟩ =
      ([(5861121 : ℚ)/32768, (1404417 : ℚ)/8192], ⟨64866⟩) := by
  norm_num [heightColumn, drawN, normalDraw, nextUnit, List.zipWith, npw42, npw22539, npw42944, npw26841, npw6182, npw50871, npw16092, npw19749, npw64866, npw56227, npw35128, npw13745, npw52190, npw58063, npw49876, npw3709, npw57242, npw26683, npw26544, npw905, npw54422, npw14311, npw13260, npw32981, npw34514, npw24019, npw9000, npw12897, npw4686, npw9727, npw29124, npw1069, npw54026, npw7275, npw39840, npw8761, npw25862, npw3351, npw23740, npw63621, npw42050, npw1027, npw45336, npw13073, npw44222, npw19759, npw54452, npw48605, npw55930, npw29851, npw17296]

theorem whWeights :
    weightColumn [(5861121 : ℚ)/32768, (1404417 : ℚ)/8192] [23, 54] ⟨64866⟩ =
      ([(35548180354208730159 : ℚ)/351843720888320000,
        (10214992842115131 : ℚ)/137438953472000], ⟨35128⟩) := by
  norm_num [weightColumn, mapRng, generateWeight, baseBmiDraw, normalDraw,
    nextUnit, List.zip, List.zipWith, npw42, npw22539, npw42944, npw26841, npw6182, npw50871, npw16092, npw19749, npw64866, npw56227, npw35128, npw13745, npw52190, npw58063, npw49876, npw3709, npw57242, npw26683, npw26544, npw905, npw54422, npw14311, npw13260, npw32981, npw34514, npw24019, npw9000, npw12897, npw4686, npw9727, npw29124, npw1069, npw54026, npw7275, npw39840, npw8761, npw25862, npw3351, npw23740, npw63621, npw42050, npw1027, npw45336, npw13073, npw44222, npw19759, npw54452, npw48605, npw55930, npw29851, npw17296]

theorem whBellies :
    bellyColumn [(35548180354208730159 : ℚ)/351843720888320000,
      (10214992842115131 : ℚ)/137438953472000] [23, 54] ⟨35128⟩ =
      ([(75726847789011930159 : ℚ)/703687441776640000,
        (24773505912195131 : ℚ)/274877906944000], ⟨52190⟩) := by
  norm_num [bellyColumn, mapRng, normalDraw, nextUnit, List.zip, List.zipWith, npw42, npw22539, npw42944, npw26841, npw6182, npw50871, npw16092, npw19749, npw64866, npw56227, npw35128, npw13745, npw52190, npw58063, npw49876, npw3709, npw57242, npw26683, npw26544, npw905, npw54422, npw14311, npw13260, npw32981, npw34514, npw24019, npw9000, npw12897, npw4686, npw9727, npw29124, npw1069, npw54026, npw7275, npw39840, npw8761, npw25862, npw3351, npw23740, npw63621, npw42050, npw1027, npw45336, npw13073, npw44222, npw19759, npw54452, npw48605, npw55930, npw29851, npw17296]

theorem wh1 : featureStage 2 { rows := [], probs := [], rng := npSeed 42 } = .ok wS1 := by
  norm_num [featureStage, npSeed, whAges, whGender, whHeights, whWeights, whBellies,
    wS1, wRow1a, wRow2a, dRow, List.range_succ, List.range_zero]

set_option maxRecDepth 4000 in
theorem wh2 : lifestyleStage wS1 = .ok wS2 := by
  norm_num [lifestyleStage, wS1, wS2, genderMF, genderFM, lowHighLH, lowHighHL, smokingQS, smokingSQ, smokingNS, smokingNQ, wRow1a, wRow2a, wRow1b, wRow2b, dRow,
    mapRng, smokingDraw, lowHighDraw, bernoulliDraw, drawN, nextUnit,
    List.zipWith, npw42, npw22539, npw42944, npw26841, npw6182, npw50871, npw16092, npw19749, npw64866, npw56227, npw35128, npw13745, npw52190, npw58063, npw49876, npw3709, npw57242, npw26683, npw26544, npw905, npw54422, npw14311, npw13260, npw32981, npw34514, npw24019, npw9000, npw12897, npw4686, npw9727, npw29124, npw1069, npw54026, npw7275, npw39840, npw8761, npw25862, npw3351, npw23740, npw63621, npw42050, npw1027, npw45336, npw13073, npw44222, npw19759, npw54452, npw48605, npw55930, npw29851, npw17296]

set_option maxRecDepth 4000 in
set_option maxHeartbeats 2000000 in
theorem wh3 : riskStage wS2 = .ok wS3 := by
  norm_num [riskStage, wS2, wS3, genderMF, genderFM, lowHighLH, lowHighHL, smokingQS, smokingSQ, smokingNS, smokingNQ, wProbs, wRow1a, wRow2a, wRow1b, wRow2b, dRow,
    mapRng, featuresOf, calculateRisk, prenoiseRisk, geneticScore, lifestyleScore,
    healthScore, geneticRaw, lifestyleRaw, healthRaw, bmiOf, npClip, isYoung,
    normalDraw, nextUnit, npw42, npw22539, npw42944, npw26841, npw6182, npw50871, npw16092, npw19749, npw64866, npw56227, npw35128, npw13745, npw52190, npw58063, npw49876, npw3709, npw57242, npw26683, npw26544, npw905, npw54422, npw14311, npw13260, npw32981, npw34514, npw24019, npw9000, npw12897, npw4686, npw9727, npw29124, npw1069, npw54026, npw7275, npw39840, npw8761, npw25862, npw3351, npw23740, npw63621, npw42050, npw1027, npw45336, npw13073, npw44222, npw19759, npw54452, npw48605, npw55930, npw29851, npw17296]

set_option maxRecDepth 4000 in
theorem wh4 : labelStage wS3 = .ok wS4 := by
  norm_num [labelStage, wS3, wS4, genderMF, genderFM, lowHighLH, lowHighHL, smokingQS, smokingSQ, smokingNS, smokingNQ, wProbs, wRow1a, wRow2a, wRow1b, wRow2b, dRow,
    mapRng, bernoulliDraw, sigmoidSteep, expQ, nextUnit, List.zipWith, npw42, npw22539, npw42944, npw26841, npw6182, npw50871, npw16092, npw19749, npw64866, npw56227, npw35128, npw13745, npw52190, npw58063, npw49876, npw3709, npw57242, npw26683, npw26544, npw905, npw54422, npw14311, npw13260, npw32981, npw34514, npw24019, npw9000, npw12897, npw4686, npw9727, npw29124, npw1069, npw54026, npw7275, npw39840, npw8761, npw25862, npw3351, npw23740, npw63621, npw42050, npw1027, npw45336, npw13073, npw44222, npw19759, npw54452, npw48605, npw55930, npw29851, npw17296]

set_option maxRecDepth 4000 in
theorem wh5 : outlierStage 2 wS4 = .ok wS4 := by
  norm_num [outlierStage, injectOutliers, nOutliersOf, outlierPick, sampleNoReplace,
    choiceN, sliceList, assignColumn, writeCells, Except.map, bind, Except.bind,
    pure, Except.pure]

set_option maxRecDepth 4000 in
theorem wh6 : timestampStage wS4 = .ok wS6 := by
  norm_num [timestampStage, wS4, wS6, wRow1a, wRow2a, wRow1b, wRow2b, dRow,
    drawN, List.zipWith, npw42, npw22539, npw42944, npw26841, npw6182, npw50871, npw16092, npw19749, npw64866, npw56227, npw35128, npw13745, npw52190, npw58063, npw49876, npw3709, npw57242, npw26683, npw26544, npw905, npw54422, npw14311, npw13260, npw32981, npw34514, npw24019, npw9000, npw12897, npw4686, npw9727, npw29124, npw1069, npw54026, npw7275, npw39840, npw8761, npw25862, npw3351, npw23740, npw63621, npw42050, npw1027, npw45336, npw13073, npw44222, npw19759, npw54452, npw48605, npw55930, npw29851, npw17296]

set_option maxRecDepth 4000 in
theorem wh7 : missingStage wS6 = .ok wS7 := by
  norm_num [missingStage, wS6, wS7, genderMF, genderFM, lowHighLH, lowHighHL, smokingQS, smokingSQ, smokingNS, smokingNQ, missingProbs, missingPass, clearCol,
    wRow1a, wRow2a, wRow1b, wRow2b, wRow1c, wRow2c, dRow,
    drawN, nextUnit, List.zipWith, List.foldl, npw42, npw22539, npw42944, npw26841, npw6182, npw50871, npw16092, npw19749, npw64866, npw56227, npw35128, npw13745, npw52190, npw58063, npw49876, npw3709, npw57242, npw26683, npw26544, npw905, npw54422, npw14311, npw13260, npw32981, npw34514, npw24019, npw9000, npw12897, npw4686, npw9727, npw29124, npw1069, npw54026, npw7275, npw39840, npw8761, npw25862, npw3351, npw23740, npw63621, npw42050, npw1027, npw45336, npw13073, npw44222, npw19759, npw54452, npw48605, npw55930, npw29851, npw17296]

set_option maxRecDepth 4000 in
theorem wh8 : prevalenceStage 20 (1/2) wS7 = .ok wS8 := by
  norm_num [prevalenceStage, calibLoop, flipOne, pickRandomRow, idxWhere, listMean,
    applyLabels, wS7, wS8, wFinalRows, wRow1a, wRow2a, wRow1b, wRow2b, wRow1c,
    wRow2c, dRow, List.zipWith, abs_le, npw42, npw22539, npw42944, npw26841, npw6182, npw50871, npw16092, npw19749, npw64866, npw56227, npw35128, npw13745, npw52190, npw58063, npw49876, npw3709, npw57242, npw26683, npw26544, npw905, npw54422, npw14311, npw13260, npw32981, npw34514, npw24019, npw9000, npw12897, npw4686, npw9727, npw29124, npw1069, npw54026, npw7275, npw39840, npw8761, npw25862, npw3351, npw23740, npw63621, npw42050, npw1027, npw45336, npw13073, npw44222, npw19759, npw54452, npw48605, npw55930, npw29851, npw17296]

theorem wAll : createDummyData 20 2 (1/2) = .ok wFinalRows := by
  simp only [createDummyData, stageOrder, runStages, applyStage,
    wh1, wh2, wh3, wh4, wh5, wh6, wh7, wh8, Except.bind, Except.map, wS8]

/-! ## General helper lemmas -/

theorem exceptBindOk {α β : Type} {x : Except PErr α} {f : α → Except PErr β}
    {b : β} (h : x.bind f = .ok b) : ∃ a, x = .ok a ∧ f a = .ok b := by
  cases x with
  | error e => simp [Except.bind] at h
  | ok a => exact ⟨a, rfl, by simpa [Except.bind] using h⟩

theorem exceptMapOk {α β : Type} {x : Except PErr α} {g : α → β} {b : β}
    (h : x.map g = .ok b) : ∃ a, x = .ok a ∧ g a = b := by
  cases x with
  | error e => simp [Except.map] at h
  | ok a => exact ⟨a, rfl, by simpa [Except.map] using h⟩

theorem drawN_fst_length (f : NpRandom → α × NpRandom) :
    ∀ (k : Nat) (r : NpRandom), (drawN f k r).1.length = k := by
  intro k
  induction k with
  | zero => intro r; rfl
  | succ m ih => intro r; simp [drawN, ih]

theorem mapRng_fst_length (f : α → NpRandom → β × NpRandom) :
    ∀ (xs : List α) (r : NpRandom), (mapRng f xs r).1.length = xs.length := by
  intro xs
  induction xs with
  | nil => intro r; rfl
  | cons x rest ih => intro r; simp [mapRng, ih]

theorem count_true_add_count_false (xs : List Bool) :
    xs.count true + xs.count false = xs.length := by
  induction xs with
  | nil => rfl
  | cons x rest ih =>
    cases x <;> simp [List.count_cons, ih] <;> omega

theorem idxWhere_eq_nil_iff (b : Bool) :
    ∀ (xs : List Bool) (i : Nat), idxWhere b xs i = [] ↔ xs.count b = 0 := by
  intro xs
  induction xs with
  | nil => intro i; simp [idxWhere]
  | cons x rest ih =>
    intro i
    by_cases hx : x = b
    · subst hx
      simp [idxWhere, List.count_cons]
    · simp [idxWhere, hx, ih, List.count_cons, Ne.symm hx]

/-! ## Calibration-loop lemmas -/

theorem flipOne_some_length {t : ℚ} {labels : List Bool} {r : NpRandom}
    {p : List Bool × NpRandom} (h : flipOne t labels r = some p) :
    p.1.length = labels.length := by
  unfold flipOne at h
  by_cases hc : t < listMean labels <;> simp [hc] at h
  · rcases h with ⟨a, b, hpick, hp⟩
    subst hp
    simp [List.length_set]
  · rcases h with ⟨a, b, hpick, hp⟩
    subst hp
    simp [List.length_set]

theorem calibLoop_step_eq (t : ℚ) (fuel : Nat) (labels : List Bool)
    (r : NpRandom) :
    calibLoop t fuel labels r =
      if labels.isEmpty then .done labels r
      else if |listMean labels - t| ≤ 1 / 100 then .done labels r
      else
        match fuel with
        | 0 => .outOfFuel
        | fuel + 1 =>
          match flipOne t labels r with
          | none => .pickFailed
          | some p => calibLoop t fuel p.1 p.2 := by
  rw [calibLoop.eq_def]

theorem calibLoop_done_mean {t : ℚ} :
    ∀ (fuel : Nat) (labels : List Bool) (r : NpRandom) (out : List Bool)
      (r2 : NpRandom), calibLoop t fuel labels r = .done out r2 →
      out = [] ∨ |listMean out - t| ≤ 1 / 100 := by
  intro fuel
  induction fuel with
  | zero =>
    intro labels r out r2 h
    rw [calibLoop_step_eq] at h
    by_cases hE : labels.isEmpty
    · rw [if_pos hE] at h
      injection h with h1 h2
      left
      rw [← h1]
      exact List.isEmpty_iff.mp hE
    · rw [if_neg hE] at h
      by_cases hT : |listMean labels - t| ≤ 1 / 100
      · rw [if_pos hT] at h
        injection h with h1 h2
        right
        rw [← h1]
        exact hT
      · rw [if_neg hT] at h
        simp at h
  | succ m ih =>
    intro labels r out r2 h
    rw [calibLoop_step_eq] at h
    by_cases hE : labels.isEmpty
    · rw [if_pos hE] at h
      injection h with h1 h2
      left
      rw [← h1]
      exact List.isEmpty_iff.mp hE
    · rw [if_neg hE] at h
      by_cases hT : |listMean labels - t| ≤ 1 / 100
      · rw [if_pos hT] at h
        injection h with h1 h2
        right
        rw [← h1]
        exact hT
      · rw [if_neg hT] at h
        cases hF : flipOne t labels r with
        | none => rw [hF] at h; simp at h
        | some p => rw [hF] at h; exact ih p.1 p.2 out r2 h

theorem calibLoop_done_length {t : ℚ} :
    ∀ (fuel : Nat) (labels : List Bool) (r : NpRandom) (out : List Bool)
      (r2 : NpRandom), calibLoop t fuel labels r = .done out r2 →
      out.length = labels.length := by
  intro fuel
  induction fuel with
  | zero =>
    intro labels r out r2 h
    rw [calibLoop_step_eq] at h
    by_cases hE : labels.isEmpty
    · rw [if_pos hE] at h
      injection h with h1 h2
      rw [← h1]
    · rw [if_neg hE] at h
      by_cases hT : |listMean labels - t| ≤ 1 / 100
      · rw [if_pos hT] at h
        injection h with h1 h2
        rw [← h1]
      · rw [if_neg hT] at h
        simp at h
  | succ m ih =>
    intro labels r out r2 h
    rw [calibLoop_step_eq] at h
    by_cases hE : labels.isEmpty
    · rw [if_pos hE] at h
      injection h with h1 h2
      rw [← h1]
    · rw [if_neg hE] at h
      by_cases hT : |listMean labels - t| ≤ 1 / 100
      · rw [if_pos hT] at h
        injection h with h1 h2
        rw [← h1]
      · rw [if_neg hT] at h
        cases hF : flipOne t labels r with
        | none => rw [hF] at h; simp at h
        | some p =>
          rw [hF] at h
          rw [ih p.1 p.2 out r2 h, flipOne_some_length hF]

theorem applyLabels_map_label :
    ∀ (rows : List Row) (ls : List Bool), ls.length = rows.length →
      (applyLabels rows ls).map Row.label = ls := by
  intro rows
  induction rows with
  | nil =>
    intro ls h
    simp at h
    simp [applyLabels, h]
  | cons row rest ih =>
    intro ls h
    cases ls with
    | nil => simp at h
    | cons l lrest =>
      simp at h
      simp [applyLabels, List.zipWith] at ih ⊢
      exact ih lrest h

/-! ## Non-convergence of the calibration loop at N = 10, t = 1/4

With ten rows the achievable prevalences are the multiples of `1/10`;
none lies within `0.01` of `0.25`, the loop condition never becomes
false, and every iteration flips exactly one label. -/

theorem tenth_far_from_quarter (k : Nat) :
    ¬(|(k : ℚ) / 10 - 1 / 4| ≤ 1 / 100) := by
  intro h
  have hne : (2 * (k : ℤ) - 5) ≠ 0 := by omega
  have habs : (1 : ℤ) ≤ |2 * (k : ℤ) - 5| := Int.one_le_abs hne
  have hq : |(2 * (k : ℚ) - 5)| ≥ 1 := by
    have hcast : ((1 : ℤ) : ℚ) ≤ ((|2 * (k : ℤ) - 5| : ℤ) : ℚ) := by
      exact_mod_cast habs
    push_cast at hcast
    linarith
  have heq : (k : ℚ) / 10 - 1 / 4 = (2 * (k : ℚ) - 5) / 20 := by ring
  rw [heq, abs_div] at h
  have h20 : |(20 : ℚ)| = 20 := by norm_num
  rw [h20] at h
  have : |(2 * (k : ℚ) - 5)| ≤ 1 / 5 := by linarith
  linarith

theorem listMean_count (labels : List Bool) :
    listMean labels = (labels.count true : ℚ) / labels.length := rfl

theorem flipOne_isSome_of_len10 (labels : List Bool) (r : NpRandom)
    (hlen : labels.length = 10) : ∃ p, flipOne (1 / 4) labels r = some p := by
  unfold flipOne
  by_cases hc : (1 : ℚ) / 4 < listMean labels
  · rw [if_pos hc]
    have hcnt : labels.count true ≠ 0 := by
      intro h0
      rw [listMean_count, h0, hlen] at hc
      norm_num at hc
    have hidx : idxWhere true labels 0 ≠ [] := by
      intro hnil
      exact hcnt ((idxWhere_eq_nil_iff true labels 0).mp hnil)
    cases hI : idxWhere true labels 0 with
    | nil => exact absurd hI hidx
    | cons a rest => exact ⟨_, rfl⟩
  · rw [if_neg hc]
    have hcnt : labels.count false ≠ 0 := by
      intro h0
      have hsum := count_true_add_count_false labels
      rw [h0, hlen] at hsum
      have h10 : labels.count true = 10 := by omega
      rw [listMean_count, h10, hlen] at hc
      norm_num at hc
    have hidx : idxWhere false labels 0 ≠ [] := by
      intro hnil
      exact hcnt ((idxWhere_eq_nil_iff false labels 0).mp hnil)
    cases hI : idxWhere false labels 0 with
    | nil => exact absurd hI hidx
    | cons a rest => exact ⟨_, rfl⟩

theorem calibLoop_len10_outOfFuel :
    ∀ (fuel : Nat) (labels : List Bool) (r : NpRandom),
      labels.length = 10 → calibLoop (1 / 4) fuel labels r = .outOfFuel := by
  intro fuel
  induction fuel with
  | zero =>
    intro labels r hlen
    rw [calibLoop_step_eq]
    have hE : ¬labels.isEmpty := by
      simp [List.isEmpty_iff]
      intro hnil
      rw [hnil] at hlen
      simp at hlen
    have hT : ¬(|listMean labels - 1 / 4| ≤ 1 / 100) := by
      rw [listMean_count, hlen]
      exact_mod_cast tenth_far_from_quarter (labels.count true)
    rw [if_neg hE, if_neg hT]
  | succ m ih =>
    intro labels r hlen
    rw [calibLoop_step_eq]
    have hE : ¬labels.isEmpty := by
      simp [List.isEmpty_iff]
      intro hnil
      rw [hnil] at hlen
      simp at hlen
    have hT : ¬(|listMean labels - 1 / 4| ≤ 1 / 100) := by
      rw [listMean_count, hlen]
      exact_mod_cast tenth_far_from_quarter (labels.count true)
    rw [if_neg hE, if_neg hT]
    obtain ⟨p, hp⟩ := flipOne_isSome_of_len10 labels r hlen
    rw [hp]
    exact ih p.1 p.2 (by rw [flipOne_some_length hp, hlen])

/-! ## Stage shape lemmas -/

theorem ageColumn_fst_length (n : Nat) (r : NpRandom) :
    (ageColumn n r).1.length = n / 2 + n / 2 := by
  simp [ageColumn, drawN_fst_length]

theorem featureStage_ok (n : Nat) (s : PipeSt) (h : n / 2 + n / 2 = n) :
    ∃ s', featureStage n s = .ok s' ∧ s'.rows.length = n := by
  unfold featureStage
  rw [if_pos (by rw [ageColumn_fst_length, h])]
  exact ⟨_, rfl, by simp⟩

theorem lifestyleStage_ok (s : PipeSt) :
    ∃ s', lifestyleStage s = .ok s' ∧ s'.rows.length = s.rows.length := by
  refine ⟨_, rfl, ?_⟩
  simp [lifestyleStage, List.length_zipWith, mapRng_fst_length, drawN_fst_length]

theorem riskStage_ok (s : PipeSt) :
    ∃ s', riskStage s = .ok s' ∧ s'.rows = s.rows ∧
      s'.probs.length = s.rows.length := by
  exact ⟨_, rfl, rfl, by simp [riskStage, mapRng_fst_length]⟩

theorem labelStage_ok (s : PipeSt) (h : s.probs.length = s.rows.length) :
    ∃ s', labelStage s = .ok s' ∧ s'.rows.length = s.rows.length := by
  refine ⟨_, rfl, ?_⟩
  simp [labelStage, List.length_zipWith, mapRng_fst_length, h]

theorem outlierStage_zero (n : Nat) (s : PipeSt) (h : n / 50 = 0) :
    outlierStage n s = .ok s := by
  simp [outlierStage, injectOutliers, nOutliersOf, h, outlierPick,
    sampleNoReplace, choiceN, sliceList, assignColumn, writeCells,
    Except.map, bind, Except.bind, pure, Except.pure]

theorem timestampStage_ok (s : PipeSt) :
    ∃ s', timestampStage s = .ok s' ∧ s'.rows.length = s.rows.length := by
  refine ⟨_, rfl, ?_⟩
  simp [timestampStage, List.length_zipWith, drawN_fst_length]

theorem missingFold_length :
    ∀ (l : List (MissCol × ℚ)) (rows : List Row) (r : NpRandom),
      (l.foldl (fun acc cp => missingPass cp acc.1 acc.2) (rows, r)).1.length =
        rows.length := by
  intro l
  induction l with
  | nil => intro rows r; rfl
  | cons cp rest ih =>
    intro rows r
    have hstep : (missingPass cp rows r).1.length = rows.length := by
      simp [missingPass, List.length_zipWith, drawN_fst_length]
    simp only [List.foldl_cons]
    rw [show missingPass cp (rows, r).1 (rows, r).2 = missingPass cp rows r from rfl]
    cases hM : missingPass cp rows r with
    | mk a b =>
      rw [hM] at hstep
      simp at hstep
      rw [ih a b, hstep]

theorem missingStage_ok (s : PipeSt) :
    ∃ s', missingStage s = .ok s' ∧ s'.rows.length = s.rows.length := by
  refine ⟨_, rfl, ?_⟩
  simp [missingStage, missingFold_length]

theorem prevalenceStage_len10 (fuel : Nat) (s : PipeSt)
    (h : s.rows.length = 10) :
    prevalenceStage fuel (1 / 4) s = .error .nonConvergent := by
  unfold prevalenceStage
  rw [calibLoop_len10_outOfFuel fuel (s.rows.map Row.label) s.rng (by simp [h])]

/-- C1: the spec requires the prevalence-calibration loop to run a bounded
number of iterations and to fail explicitly (CalibrationNonConvergence)
when the tolerance cannot be reached; the code's `while` loop at line 238
has no bound.  At the valid configuration N = 10, t = 0.25, no achievable
prevalence k/10 lies within 0.01 of the target, so the loop body runs
forever: for EVERY iteration bound `fuel`, the run is still inside the
loop when the bound expires.  The code therefore loops without bound
instead of reporting a convergence failure. -/
theorem createDummyData_n10_quarter_loops_forever :
    ∀ fuel : Nat, createDummyData fuel 10 (1 / 4) = .error PErr.nonConvergent := by
  intro fuel
  obtain ⟨s1, h1, l1⟩ := featureStage_ok 10 ⟨[], [], npSeed 42⟩ (by norm_num)
  obtain ⟨s2, h2, l2⟩ := lifestyleStage_ok s1
  obtain ⟨s3, h3, hr3, hp3⟩ := riskStage_ok s2
  obtain ⟨s4, h4, l4⟩ := labelStage_ok s3 (by rw [hp3, hr3])
  have h5 := outlierStage_zero 10 s4 (by norm_num)
  obtain ⟨s6, h6, l6⟩ := timestampStage_ok s4
  obtain ⟨s7, h7, l7⟩ := missingStage_ok s6
  have hlen7 : s7.rows.length = 10 := by
    rw [l7, l6, l4, hr3, l2, l1]
  have h8 := prevalenceStage_len10 fuel s7 hlen7
  simp only [createDummyData, stageOrder, runStages, applyStage,
    h1, h2, h3, h4, h5, h6, h7, h8, Except.bind, Except.map]

/-- C5: whenever `create_dummy_data` returns a (nonempty) dataset, the mean
of `label_hypertension` is within 0.01 of the target prevalence: the
calibration loop, the last stage of the pipeline, only exits when
`abs(mean - target) <= 0.01` holds, and no later stage touches the
labels.  (The mean of an empty frame is NaN in numpy, so the empty case
carries no tolerance statement.) -/
theorem createDummyData_prevalence_tolerance (fuel n : Nat) (t : ℚ)
    (rows : List Row) (h : createDummyData fuel n t = .ok rows)
    (hne : rows ≠ []) : |listMean (rows.map Row.label) - t| ≤ 1 / 100 := by
  unfold createDummyData at h
  obtain ⟨sF, hrun, hrows⟩ := exceptMapOk h
  simp only [stageOrder, runStages, applyStage] at hrun
  obtain ⟨s1, h1, hrun⟩ := exceptBindOk hrun
  obtain ⟨s2, h2, hrun⟩ := exceptBindOk hrun
  obtain ⟨s3, h3, hrun⟩ := exceptBindOk hrun
  obtain ⟨s4, h4, hrun⟩ := exceptBindOk hrun
  obtain ⟨s5, h5, hrun⟩ := exceptBindOk hrun
  obtain ⟨s6, h6, hrun⟩ := exceptBindOk hrun
  obtain ⟨s7, h7, hrun⟩ := exceptBindOk hrun
  obtain ⟨s8, h8, hrun⟩ := exceptBindOk hrun
  injection hrun with hsF
  subst hsF
  unfold prevalenceStage at h8
  cases hcal : calibLoop t fuel (s7.rows.map Row.label) s7.rng with
  | done ls r2 =>
    rw [hcal] at h8
    injection h8 with hs8
    subst hs8
    simp only at hrows
    have hlen := calibLoop_done_length fuel (s7.rows.map Row.label) s7.rng ls r2 hcal
    rcases calibLoop_done_mean fuel (s7.rows.map Row.label) s7.rng ls r2 hcal with
      hnil | htol
    · exfalso
      apply hne
      rw [← hrows, hnil]
      simp [applyLabels]
    · have hmap : (applyLabels s7.rows ls).map Row.label = ls :=
        applyLabels_map_label s7.rows ls (by rw [hlen]; simp)
      rw [← hrows, hmap]
      exact htol
  | pickFailed =>
    rw [hcal] at h8
    exact absurd h8 (by simp)
  | outOfFuel =>
    rw [hcal] at h8
    exact absurd h8 (by simp)

/-- Witness for C5: the concrete run with fuel 20, N = 2, t = 1/2 returns
the nonempty dataset `wFinalRows`, whose label mean is within the
tolerance. -/
theorem createDummyData_prevalence_tolerance_witness :
    |listMean (wFinalRows.map Row.label) - 1 / 2| ≤ 1 / 100 :=
  createDummyData_prevalence_tolerance 20 2 (1 / 2) wFinalRows wAll
    (by simp [wFinalRows])

/-! ## The degenerate configuration N = 0

With zero rows every stage succeeds without drawing from the generator,
and the calibration loop exits at once (the mean of an empty column is NaN
and `NaN > 0.01` is False in numpy). -/

theorem zFeature :
    featureStage 0 { rows := [], probs := [], rng := npSeed 42 } =
      .ok { rows := [], probs := [], rng := npSeed 42 } := rfl

theorem zLifestyle :
    lifestyleStage { rows := [], probs := [], rng := npSeed 42 } =
      .ok { rows := [], probs := [], rng := npSeed 42 } := rfl

theorem zRisk :
    riskStage { rows := [], probs := [], rng := npSeed 42 } =
      .ok { rows := [], probs := [], rng := npSeed 42 } := rfl

theorem zLabel :
    labelStage { rows := [], probs := [], rng := npSeed 42 } =
      .ok { rows := [], probs := [], rng := npSeed 42 } := rfl

theorem zOutlier :
    outlierStage 0 { rows := [], probs := [], rng := npSeed 42 } =
      .ok { rows := [], probs := [], rng := npSeed 42 } := rfl

theorem zTimestamp :
    timestampStage { rows := [], probs := [], rng := npSeed 42 } =
      .ok { rows := [], probs := [], rng := npSeed 42 } := rfl

theorem zMissing :
    missingStage { rows := [], probs := [], rng := npSeed 42 } =
      .ok { rows := [], probs := [], rng := npSeed 42 } := rfl

theorem zPrevalence (fuel : Nat) (t : ℚ) :
    prevalenceStage fuel t { rows := [], probs := [], rng := npSeed 42 } =
      .ok { rows := [], probs := [], rng := npSeed 42 } := by
  unfold prevalenceStage
  rw [calibLoop_step_eq]
  simp [applyLabels]

/-- C7 counterexample: the spec's ConfigurationError is never raised — the
code performs no input validation at all.  At the invalid configuration
N = 0 (the target prevalence 0.29 is fine), `create_dummy_data` silently
returns an empty dataset instead of reporting a fatal ConfigurationError
before sampling. -/
theorem createDummyData_no_validation_counterexample :
    createDummyData 1 0 (29 / 100) = .ok [] := by
  have hz := zPrevalence 1 (29 / 100)
  simp only [createDummyData, stageOrder, runStages, applyStage, zFeature,
    zLifestyle, zRisk, zLabel, zOutlier, zTimestamp, zMissing, hz,
    Except.bind, Except.map]

/-- C7 amended: the code has no configuration validation.  For the invalid
sample count N = 0 and EVERY target prevalence (valid or not), the run
completes normally with an empty dataset; no error of any kind is
reported before or during sampling. -/
theorem createDummyData_no_validation (fuel : Nat) (t : ℚ) :
    createDummyData fuel 0 t = .ok [] := by
  have hz := zPrevalence fuel t
  simp only [createDummyData, stageOrder, runStages, applyStage, zFeature,
    zLifestyle, zRisk, zLabel, zOutlier, zTimestamp, zMissing, hz,
    Except.bind, Except.map]

/-- C2 counterexample: the spec's claimed stage order puts the prevalence
calibrator (its stage 5) before the outlier and missing-value injectors;
in the code the prevalence adjustment is the LAST step (source step 11,
lines 237–244), after outlier injection (step 8) and missing-value
injection (step 10), so the claimed order is wrong on both counts. -/
theorem stageOrder_calibrator_not_before_injectors :
    ¬(stageOrder.indexOf Stage.prevalenceCalibrator <
        stageOrder.indexOf Stage.outlierInjector) ∧
      ¬(stageOrder.indexOf Stage.prevalenceCalibrator <
        stageOrder.indexOf Stage.missingValueInjector) ∧
      stageOrder.erase Stage.timestamper ≠ specClaimedOrder := by
  decide

/-- C2 amended: the stages execute in the fixed order FeatureSampler,
LifestyleSampler, RiskScorer, LabelSampler, OutlierInjector, (timestamp
assignment), MissingValueInjector, PrevalenceCalibrator: prevalence
calibration is applied to the row set AFTER outlier injection and after
missing-value injection, not before. -/
theorem stageOrder_injectors_before_calibrator :
    stageOrder.erase Stage.timestamper =
      [Stage.featureSampler, Stage.lifestyleSampler, Stage.riskScorer,
       Stage.labelSampler, Stage.outlierInjector, Stage.missingValueInjector,
       Stage.prevalenceCalibrator] ∧
      stageOrder.indexOf Stage.outlierInjector <
        stageOrder.indexOf Stage.prevalenceCalibrator ∧
      stageOrder.indexOf Stage.missingValueInjector <
        stageOrder.indexOf Stage.prevalenceCalibrator := by
  decide

/-- C4 counterexample: the seed is not a configuration input that drives
the randomness — `create_dummy_data` hardcodes `np.random.seed(42)` as its
first statement, so two runs whose ambient generator states (the result of
any caller-chosen seed) differ in every bit still produce bit-identical
datasets; the caller's seed drives nothing. -/
theorem createDummyData_seed_ignored_counterexample :
    createDummyDataAmbient ⟨0⟩ 1 4 (29 / 100) =
        createDummyDataAmbient ⟨987654321⟩ 1 4 (29 / 100) ∧
      (⟨0⟩ : NpRandom) ≠ (⟨987654321⟩ : NpRandom) :=
  ⟨rfl, by decide⟩

/-- C4 amended: the generated dataset is a pure function of
(N, t) alone.  Because the function reseeds the global generator with the
constant 42, ANY two runs with identical (N, t) — whatever the prior
generator state, i.e. whatever seed the caller configured — produce
bit-identical datasets; no seed parameter exists in the configuration. -/
theorem createDummyData_pure_in_n_t (a a' : NpRandom) (fuel n : Nat) (t : ℚ) :
    createDummyDataAmbient a fuel n t = createDummyDataAmbient a' fuel n t := rfl

/-- The clipped normalizations land in the unit interval. -/
theorem npClip_unit (x : ℚ) : 0 ≤ npClip x 0 1 ∧ npClip x 0 1 ≤ 1 :=
  ⟨le_min (le_max_right x 0) zero_le_one, min_le_right _ _⟩

/-- C6: for every feature combination and every noise value, the three
normalized scores and the raw risk probability returned by
`calculate_risk` lie in [0, 1] — each is `np.clip(…, 0, 1)` (source lines
152–155 and 191). -/
theorem riskScores_in_unit_interval (r : RiskFeatures) (noise : ℚ) :
    (0 ≤ geneticScore r ∧ geneticScore r ≤ 1) ∧
      (0 ≤ lifestyleScore r ∧ lifestyleScore r ≤ 1) ∧
      (0 ≤ healthScore r ∧ healthScore r ≤ 1) ∧
      (0 ≤ calculateRisk r noise ∧ calculateRisk r noise ≤ 1) :=
  ⟨npClip_unit _, npClip_unit _, npClip_unit _, npClip_unit _⟩

/-- C8: the young bad-lifestyle scenario row (age 20, family history, high
salt, high sugar, low exercise, smoker, height 170, weight 90; belly at
the generator's noise-free value 105) has BMI ≈ 31.1, lifestyle and
health scores above 0.6 — the trigger of the +0.20 young interaction
bonus — and a pre-noise risk above 0.7, for either gender. -/
theorem c8row_scenario :
    |bmiOf 90 170 - 311 / 10| < 1 / 20 ∧
      (3 / 5 < lifestyleScore (c8row Gender.male) ∧
        3 / 5 < healthScore (c8row Gender.male) ∧
        7 / 10 < prenoiseRisk (c8row Gender.male)) ∧
      (3 / 5 < lifestyleScore (c8row Gender.female) ∧
        3 / 5 < healthScore (c8row Gender.female) ∧
        7 / 10 < prenoiseRisk (c8row Gender.female)) := by
  norm_num [c8row, bmiOf, prenoiseRisk, geneticScore, lifestyleScore,
    healthScore, geneticRaw, lifestyleRaw, healthRaw, npClip, isYoung,
    abs_lt, genderMF, genderFM, lowHighLH, lowHighHL, smokingQS, smokingSQ]

/-- C10: the BMI recomputed by `calculate_risk` from the generated weight
recovers exactly the `base_bmi` value drawn inside `generate_weight`, for
every nonzero height — the weight derivation `base_bmi * (height/100)^2`
and the BMI formula `weight / (height/100)^2` are exact inverses in
rational arithmetic. -/
theorem generateWeight_bmi_roundtrip (h : ℚ) (age : ℤ) (r : NpRandom)
    (hh : h ≠ 0) : bmiOf (generateWeight h age r).1 h = (baseBmiDraw age r).1 := by
  unfold bmiOf generateWeight
  have hsq : (h / 100) ^ 2 ≠ 0 := pow_ne_zero 2 (div_ne_zero hh (by norm_num))
  exact mul_div_cancel_right₀ _ hsq

/-- Witness for C10 at height 170, age 20. -/
theorem generateWeight_bmi_roundtrip_witness :
    (170 : ℚ) ≠ 0 ∧
      bmiOf (generateWeight 170 20 ⟨7⟩).1 170 = (baseBmiDraw 20 ⟨7⟩).1 :=
  ⟨by norm_num, generateWeight_bmi_roundtrip 170 20 ⟨7⟩ (by norm_num)⟩

/-- C9 counterexample: on an absent input file, `split_data` does not
abort — the `FileNotFoundError` is caught, an error message is printed and
`None` is returned (source lines 30–32), which is a normal return, not a
failure. -/
theorem splitData_missing_file_counterexample :
    splitData none 42 = SplitOutcome.returnedNone ∧
      SplitOutcome.returnedNone ≠ SplitOutcome.raised :=
  ⟨rfl, by decide⟩

/-- C9 amended: `split_data` aborts (re-raises the `KeyError`) when the
`label_hypertension` stratification column is missing from a present input
table, but on an absent input file it prints an error and returns `None`
instead of aborting. -/
theorem splitData_error_behavior :
    (∀ (df : CsvTable) (rs : Nat), "label_hypertension" ∉ df.cols →
        splitData (some df) rs = SplitOutcome.raised) ∧
      ∀ rs : Nat, splitData none rs = SplitOutcome.returnedNone := by
  constructor
  · intro df rs h
    simp only [splitData]
    rw [if_neg h]
  · intro rs
    rfl

/-- Witness for C9 amended: a table with columns [id, age] lacks the
stratification column, so the split raises; an absent file returns None. -/
theorem splitData_error_behavior_witness :
    ("label_hypertension" ∉ c9table.cols ∧
        splitData (some c9table) 7 = SplitOutcome.raised) ∧
      splitData none 7 = SplitOutcome.returnedNone :=
  ⟨⟨by decide, splitData_error_behavior.1 c9table 7 (by decide)⟩,
    splitData_error_behavior.2 7⟩

/-! ## Outlier-injection lemmas -/

/-- C3 counterexample: at N = 50 the outlier count is `int(50*0.02) = 1`,
not divisible by 4.  The fourth assignment's key slice
`outlier_indices[3*n_outliers//4:]` then holds one index while its value
array `np.random.choice([...], n_outliers//4)` is empty, and pandas raises
a length-mismatch ValueError instead of overwriting
`4 * (1 / 4) = 0` rows. -/
theorem injectOutliers_n50_mismatch :
    injectOutliers 50 (cRows 50) (npSeed 42) = .error PErr.locMismatch := by
  rfl

theorem mem_of_getD {α : Type} (l : List α) (k : Nat) (d : α)
    (h : k < l.length) : l.getD k d ∈ l := by
  induction l generalizing k with
  | nil => simp at h
  | cons x rest ih =>
    cases k with
    | zero => exact List.mem_cons_self x rest
    | succ m =>
      simp only [List.length_cons] at h
      exact List.mem_cons_of_mem x (ih m (by omega))

theorem getD_set_self {α : Type} (l : List α) (i : Nat) (v d : α)
    (h : i < l.length) : (l.set i v).getD i d = v := by
  induction l generalizing i with
  | nil => simp at h
  | cons x rest ih =>
    cases i with
    | zero => rfl
    | succ m =>
      simp only [List.length_cons] at h
      exact ih m (by omega)

theorem getD_set_ne {α : Type} (l : List α) (i j : Nat) (v d : α)
    (h : i ≠ j) : (l.set i v).getD j d = l.getD j d := by
  induction l generalizing i j with
  | nil => simp [List.set]
  | cons x rest ih =>
    cases i with
    | zero =>
      cases j with
      | zero => exact absurd rfl h
      | succ m => rfl
    | succ m =>
      cases j with
      | zero => rfl
      | succ k => exact ih m k (by omega)

theorem sampleNoReplace_length :
    ∀ (k : Nat) (pool : List Nat) (r : NpRandom), k ≤ pool.length →
      (sampleNoReplace k pool r).1.length = k := by
  intro k
  induction k with
  | zero => intro pool r _; rfl
  | succ m ih =>
    intro pool r h
    have hpos : 0 < pool.length := by omega
    have hi : (npNext r).1 % pool.length < pool.length := Nat.mod_lt _ hpos
    simp only [sampleNoReplace, List.length_cons]
    rw [ih _ _ (by rw [List.length_eraseIdx_of_lt hi]; omega)]

theorem sampleNoReplace_subset :
    ∀ (k : Nat) (pool : List Nat) (r : NpRandom), k ≤ pool.length →
      ∀ x ∈ (sampleNoReplace k pool r).1, x ∈ pool := by
  intro k
  induction k with
  | zero => intro pool r _ x h; simp [sampleNoReplace] at h
  | succ m ih =>
    intro pool r hk x h
    have hpos : 0 < pool.length := by omega
    have hi : (npNext r).1 % pool.length < pool.length := Nat.mod_lt _ hpos
    simp only [sampleNoReplace, List.mem_cons] at h
    rcases h with h | h
    · subst h
      exact mem_of_getD pool _ 0 hi
    · exact List.eraseIdx_subset _ _
        (ih _ _ (by rw [List.length_eraseIdx_of_lt hi]; omega) x h)

theorem getD_not_mem_eraseIdx (l : List Nat) :
    ∀ (i : Nat), l.Nodup → i < l.length → l.getD i 0 ∉ l.eraseIdx i := by
  induction l with
  | nil => intro i _ h; simp at h
  | cons x rest ih =>
    intro i hnd hlt
    cases i with
    | zero =>
      simp [List.eraseIdx]
      exact (List.nodup_cons.mp hnd).1
    | succ m =>
      simp only [List.length_cons] at hlt
      have hnd' := List.nodup_cons.mp hnd
      intro hmem
      have hmem' : rest.getD m 0 ∈ x :: rest.eraseIdx m := hmem
      rcases List.mem_cons.mp hmem' with heq | hin
      · exact hnd'.1 (heq ▸ mem_of_getD rest m 0 (by omega))
      · exact ih m hnd'.2 (by omega) hin

theorem sampleNoReplace_nodup :
    ∀ (k : Nat) (pool : List Nat) (r : NpRandom), k ≤ pool.length → pool.Nodup →
      (sampleNoReplace k pool r).1.Nodup := by
  intro k
  induction k with
  | zero => intro pool r _ _; simp [sampleNoReplace]
  | succ m ih =>
    intro pool r hk hnd
    have hpos : 0 < pool.length := by omega
    have hi : (npNext r).1 % pool.length < pool.length := Nat.mod_lt _ hpos
    have herase : (pool.eraseIdx ((npNext r).1 % pool.length)).length =
        pool.length - 1 := List.length_eraseIdx_of_lt hi
    simp only [sampleNoReplace, List.nodup_cons]
    constructor
    · intro hmem
      exact getD_not_mem_eraseIdx pool _ hnd hi
        (sampleNoReplace_subset m _ _ (by omega) _ hmem)
    · exact ih _ _ (by omega)
        (List.Nodup.sublist (List.eraseIdx_sublist _ _) hnd)

theorem choiceN_length {α : Type} (vals : List α) (d : α) :
    ∀ (k : Nat) (r : NpRandom), (choiceN vals d k r).1.length = k := by
  intro k
  induction k with
  | zero => intro r; rfl
  | succ m ih => intro r; simp [choiceN, ih]

theorem choiceN_mem {α : Type} (vals : List α) (d : α) (hne : vals ≠ []) :
    ∀ (k : Nat) (r : NpRandom) (v : α), v ∈ (choiceN vals d k r).1 → v ∈ vals := by
  intro k
  induction k with
  | zero => intro r v h; simp [choiceN] at h
  | succ m ih =>
    intro r v h
    simp only [choiceN, List.mem_cons] at h
    rcases h with h | h
    · subst h
      have hpos : 0 < vals.length := List.length_pos.mpr hne
      exact mem_of_getD vals _ d (Nat.mod_lt _ hpos)
    · exact ih _ v h

theorem writeCells_length {α : Type} (upd : Row → α → Row) :
    ∀ (idxs : List Nat) (vals : List α) (rows : List Row),
      (writeCells upd rows idxs vals).length = rows.length := by
  intro idxs
  induction idxs with
  | nil => intro vals rows; cases vals <;> rfl
  | cons i is ih =>
    intro vals rows
    cases vals with
    | nil => rfl
    | cons v vs => simp [writeCells, ih, List.length_set]

theorem writeCells_getD_not_mem {α : Type} (upd : Row → α → Row) :
    ∀ (idxs : List Nat) (vals : List α) (rows : List Row) (j : Nat),
      j ∉ idxs →
      (writeCells upd rows idxs vals).getD j dRow = rows.getD j dRow := by
  intro idxs
  induction idxs with
  | nil => intro vals rows j _; cases vals <;> rfl
  | cons i is ih =>
    intro vals rows j hj
    cases vals with
    | nil => rfl
    | cons v vs =>
      simp only [List.mem_cons] at hj
      push_neg at hj
      simp only [writeCells]
      rw [ih vs _ j hj.2, getD_set_ne _ _ _ _ _ (Ne.symm hj.1)]

theorem writeCells_getD_mem {α : Type} (upd : Row → α → Row) :
    ∀ (idxs : List Nat) (vals : List α) (rows : List Row),
      (∀ i ∈ idxs, i < rows.length) → idxs.Nodup →
      idxs.length = vals.length →
      ∀ j ∈ idxs, ∃ v ∈ vals,
        (writeCells upd rows idxs vals).getD j dRow =
          upd (rows.getD j dRow) v := by
  intro idxs
  induction idxs with
  | nil => intro vals rows _ _ _ j hj; simp at hj
  | cons i is ih =>
    intro vals rows hlt hnd hlen j hj
    cases vals with
    | nil => simp at hlen
    | cons v vs =>
      have hnd' := List.nodup_cons.mp hnd
      simp only [List.length_cons] at hlen
      rcases List.mem_cons.mp hj with heq | hin
      · subst heq
        refine ⟨v, List.mem_cons_self v vs, ?_⟩
        simp only [writeCells]
        rw [writeCells_getD_not_mem upd is vs _ j hnd'.1,
          getD_set_self _ _ _ _ (hlt j hj)]
      · have hne : i ≠ j := by
          intro heq
          exact hnd'.1 (heq ▸ hin)
        obtain ⟨w, hw, hres⟩ := ih vs (rows.set i (upd (rows.getD i dRow) v))
          (by intro i' hi'; rw [List.length_set]; exact hlt i' (List.mem_cons_of_mem i hi'))
          hnd'.2 (by omega) j hin
        refine ⟨w, List.mem_cons_of_mem v hw, ?_⟩
        simp only [writeCells]
        rw [hres, getD_set_ne _ _ _ _ _ hne]

theorem assignColumn_eq_ok {α : Type} (upd : Row → α → Row) (rows : List Row)
    (idxs : List Nat) (vals : List α) (h : idxs.length = vals.length) :
    assignColumn upd rows idxs vals = .ok (writeCells upd rows idxs vals) := by
  simp [assignColumn, h]

theorem listDisjoint_mono_right {l1 l2 l3 : List Nat}
    (h : List.Disjoint l1 l2) (hsub : l3 ⊆ l2) : List.Disjoint l1 l3 :=
  fun _ ha hb => h ha (hsub hb)

theorem drop_subset_drop_of_le {α : Type} (xs : List α) {m k : Nat}
    (h : k ≤ m) : xs.drop m ⊆ xs.drop k := by
  have : xs.drop m = (xs.drop k).drop (m - k) := by
    rw [List.drop_drop]
    congr 1
    omega
  rw [this]
  exact List.drop_subset _ _

theorem fourPass_spec (rows : List Row) (idx : List Nat) (q : Nat)
    (w1 w2 w3 : List ℚ) (a4 : List ℤ)
    (hlen : idx.length = 4 * q) (hnd : idx.Nodup)
    (hmem : ∀ j ∈ idx, j < rows.length)
    (hw1 : w1.length = q) (hw2 : w2.length = q) (hw3 : w3.length = q)
    (ha4 : a4.length = q) :
    ∀ out, out = writeCells setAgeVal (writeCells setBellyVal
      (writeCells setHeightVal (writeCells setWeightVal rows (idx.take q) w1)
        ((idx.drop q).take q) w2) ((idx.drop (2 * q)).take q) w3)
      (idx.drop (3 * q)) a4 →
      out.length = rows.length ∧
      (∀ j ∉ idx, out.getD j dRow = rows.getD j dRow) ∧
      (idx.take q ++ (idx.drop q).take q ++ (idx.drop (2 * q)).take q ++
        idx.drop (3 * q) = idx) ∧
      (∀ j ∈ idx.take q, ∃ v ∈ w1,
        out.getD j dRow = setWeightVal (rows.getD j dRow) v) ∧
      (∀ j ∈ (idx.drop q).take q, ∃ v ∈ w2,
        out.getD j dRow = setHeightVal (rows.getD j dRow) v) ∧
      (∀ j ∈ (idx.drop (2 * q)).take q, ∃ v ∈ w3,
        out.getD j dRow = setBellyVal (rows.getD j dRow) v) ∧
      (∀ j ∈ idx.drop (3 * q), ∃ v ∈ a4,
        out.getD j dRow = setAgeVal (rows.getD j dRow) v) := by
  intro out hout
  have hsub1 : idx.take q ⊆ idx := List.take_subset _ _
  have hsub2 : (idx.drop q).take q ⊆ idx :=
    (List.take_subset _ _).trans (List.drop_subset _ _)
  have hsub3 : (idx.drop (2 * q)).take q ⊆ idx :=
    (List.take_subset _ _).trans (List.drop_subset _ _)
  have hsub4 : idx.drop (3 * q) ⊆ idx := List.drop_subset _ _
  have hnd1 : (idx.take q).Nodup := hnd.sublist (List.take_sublist _ _)
  have hnd2 : ((idx.drop q).take q).Nodup :=
    hnd.sublist ((List.take_sublist _ _).trans (List.drop_sublist _ _))
  have hnd3 : ((idx.drop (2 * q)).take q).Nodup :=
    hnd.sublist ((List.take_sublist _ _).trans (List.drop_sublist _ _))
  have hnd4 : (idx.drop (3 * q)).Nodup := hnd.sublist (List.drop_sublist _ _)
  have hl1 : (idx.take q).length = q := by
    rw [List.length_take]
    omega
  have hl2 : ((idx.drop q).take q).length = q := by
    rw [List.length_take, List.length_drop]
    omega
  have hl3 : ((idx.drop (2 * q)).take q).length = q := by
    rw [List.length_take, List.length_drop]
    omega
  have hl4 : (idx.drop (3 * q)).length = q := by
    rw [List.length_drop]
    omega
  have hd12 : List.Disjoint (idx.take q) ((idx.drop q).take q) :=
    listDisjoint_mono_right (List.disjoint_take_drop hnd le_rfl)
      (List.take_subset _ _)
  have hd13 : List.Disjoint (idx.take q) ((idx.drop (2 * q)).take q) :=
    listDisjoint_mono_right (List.disjoint_take_drop hnd le_rfl)
      ((List.take_subset _ _).trans (drop_subset_drop_of_le idx (by omega)))
  have hd14 : List.Disjoint (idx.take q) (idx.drop (3 * q)) :=
    listDisjoint_mono_right (List.disjoint_take_drop hnd le_rfl)
      (drop_subset_drop_of_le idx (by omega))
  have hyd : (idx.drop q).Nodup := hnd.sublist (List.drop_sublist _ _)
  have hdrop2 : idx.drop (2 * q) = (idx.drop q).drop q := by
    rw [List.drop_drop]
    congr 1
    omega
  have hdrop3 : idx.drop (3 * q) = (idx.drop q).drop (2 * q) := by
    rw [List.drop_drop]
    congr 1
    omega
  have hd23 : List.Disjoint ((idx.drop q).take q) ((idx.drop (2 * q)).take q) :=
    listDisjoint_mono_right (List.disjoint_take_drop hyd le_rfl)
      (by rw [hdrop2]; exact List.take_subset _ _)
  have hd24 : List.Disjoint ((idx.drop q).take q) (idx.drop (3 * q)) :=
    listDisjoint_mono_right (List.disjoint_take_drop hyd le_rfl)
      (by rw [hdrop3]; exact drop_subset_drop_of_le (idx.drop q) (by omega))
  have hzd : (idx.drop (2 * q)).Nodup := hnd.sublist (List.drop_sublist _ _)
  have hdrop34 : idx.drop (3 * q) = (idx.drop (2 * q)).drop q := by
    rw [List.drop_drop]
    congr 1
    omega
  have hd34 : List.Disjoint ((idx.drop (2 * q)).take q) (idx.drop (3 * q)) :=
    listDisjoint_mono_right (List.disjoint_take_drop hzd le_rfl)
      (by rw [hdrop34]; exact List.Subset.refl _)
  refine ⟨?_, ?_, ?_, ?_, ?_, ?_, ?_⟩
  · rw [hout, writeCells_length, writeCells_length, writeCells_length,
      writeCells_length]
  · intro j hj
    rw [hout, writeCells_getD_not_mem _ _ _ _ _ (fun hc => hj (hsub4 hc)),
      writeCells_getD_not_mem _ _ _ _ _ (fun hc => hj (hsub3 hc)),
      writeCells_getD_not_mem _ _ _ _ _ (fun hc => hj (hsub2 hc)),
      writeCells_getD_not_mem _ _ _ _ _ (fun hc => hj (hsub1 hc))]
  · have c1 : (idx.drop (2 * q)).take q ++ idx.drop (3 * q) = idx.drop (2 * q) := by
      rw [hdrop34, List.take_append_drop]
    have c2 : (idx.drop q).take q ++ idx.drop (2 * q) = idx.drop q := by
      rw [hdrop2, List.take_append_drop]
    rw [List.append_assoc, List.append_assoc, c1, c2, List.take_append_drop]
  · intro j hj
    obtain ⟨v, hv, hres⟩ := writeCells_getD_mem setWeightVal (idx.take q) w1 rows
      (fun i hi => hmem i (hsub1 hi)) hnd1 (by rw [hl1, hw1]) j hj
    refine ⟨v, hv, ?_⟩
    rw [hout, writeCells_getD_not_mem _ _ _ _ _ (fun hc => hd14 hj hc),
      writeCells_getD_not_mem _ _ _ _ _ (fun hc => hd13 hj hc),
      writeCells_getD_not_mem _ _ _ _ _ (fun hc => hd12 hj hc), hres]
  · intro j hj
    obtain ⟨v, hv, hres⟩ := writeCells_getD_mem setHeightVal ((idx.drop q).take q)
      w2 (writeCells setWeightVal rows (idx.take q) w1)
      (fun i hi => by rw [writeCells_length]; exact hmem i (hsub2 hi))
      hnd2 (by rw [hl2, hw2]) j hj
    refine ⟨v, hv, ?_⟩
    rw [hout, writeCells_getD_not_mem _ _ _ _ _ (fun hc => hd24 hj hc),
      writeCells_getD_not_mem _ _ _ _ _ (fun hc => hd23 hj hc), hres,
      writeCells_getD_not_mem _ _ _ _ _ (fun hc => hd12 hc hj)]
  · intro j hj
    obtain ⟨v, hv, hres⟩ := writeCells_getD_mem setBellyVal
      ((idx.drop (2 * q)).take q) w3
      (writeCells setHeightVal (writeCells setWeightVal rows (idx.take q) w1)
        ((idx.drop q).take q) w2)
      (fun i hi => by
        rw [writeCells_length, writeCells_length]
        exact hmem i (hsub3 hi))
      hnd3 (by rw [hl3, hw3]) j hj
    refine ⟨v, hv, ?_⟩
    rw [hout, writeCells_getD_not_mem _ _ _ _ _ (fun hc => hd34 hj hc), hres,
      writeCells_getD_not_mem _ _ _ _ _ (fun hc => hd23 hc hj),
      writeCells_getD_not_mem _ _ _ _ _ (fun hc => hd13 hc hj)]
  · intro j hj
    obtain ⟨v, hv, hres⟩ := writeCells_getD_mem setAgeVal (idx.drop (3 * q)) a4
      (writeCells setBellyVal (writeCells setHeightVal
        (writeCells setWeightVal rows (idx.take q) w1) ((idx.drop q).take q) w2)
        ((idx.drop (2 * q)).take q) w3)
      (fun i hi => by
        rw [writeCells_length, writeCells_length, writeCells_length]
        exact hmem i (hsub4 hi))
      hnd4 (by rw [hl4, ha4]) j hj
    refine ⟨v, hv, ?_⟩
    rw [hout, hres, writeCells_getD_not_mem _ _ _ _ _ (fun hc => hd34 hc hj),
      writeCells_getD_not_mem _ _ _ _ _ (fun hc => hd24 hc hj),
      writeCells_getD_not_mem _ _ _ _ _ (fun hc => hd14 hc hj)]

/-- C3 amended: whenever the outlier count `int(0.02 * N)` IS divisible by
4, the injection succeeds and behaves as the claim describes: the index
list is `int(0.02 N)` distinct valid row indices, the four contiguous
quartile slices cover it exactly, every row outside it is untouched, and
every row inside it is overwritten in exactly one designated column with a
value from that column's fixed discrete pool.  (When the count is not
divisible by 4 the code instead fails with a pandas length-mismatch
error.) -/
theorem injectOutliers_mod4_spec (rows : List Row) (r : NpRandom)
    (h4 : nOutliersOf rows.length % 4 = 0) :
    ∃ out rng2, injectOutliers rows.length rows r = .ok (out, rng2) ∧
      out.length = rows.length ∧
      (outlierPick rows.length r).1.Nodup ∧
      (outlierPick rows.length r).1.length = nOutliersOf rows.length ∧
      (∀ j ∈ (outlierPick rows.length r).1, j < rows.length) ∧
      (∀ j : Nat, j ∉ (outlierPick rows.length r).1 → out.getD j dRow = rows.getD j dRow) ∧
      ((outlierSlices rows.length r).1 ++ (outlierSlices rows.length r).2.1 ++
        (outlierSlices rows.length r).2.2.1 ++
        (outlierSlices rows.length r).2.2.2 = (outlierPick rows.length r).1) ∧
      (∀ j ∈ (outlierSlices rows.length r).1, ∃ v ∈ weightOutlierVals,
        out.getD j dRow = setWeightVal (rows.getD j dRow) v) ∧
      (∀ j ∈ (outlierSlices rows.length r).2.1, ∃ v ∈ heightOutlierVals,
        out.getD j dRow = setHeightVal (rows.getD j dRow) v) ∧
      (∀ j ∈ (outlierSlices rows.length r).2.2.1, ∃ v ∈ bellyOutlierVals,
        out.getD j dRow = setBellyVal (rows.getD j dRow) v) ∧
      (∀ j ∈ (outlierSlices rows.length r).2.2.2, ∃ v ∈ ageOutlierVals,
        out.getD j dRow = setAgeVal (rows.getD j dRow) v) := by
  have hle : nOutliersOf rows.length ≤ rows.length := Nat.div_le_self _ _
  have hpool : (List.range rows.length).length = rows.length :=
    List.length_range rows.length
  have hlenIdx : (outlierPick rows.length r).1.length = nOutliersOf rows.length :=
    sampleNoReplace_length _ _ _ (by rw [hpool]; exact hle)
  have hnodup : (outlierPick rows.length r).1.Nodup :=
    sampleNoReplace_nodup _ _ _ (by rw [hpool]; exact hle)
      (List.nodup_range rows.length)
  have hmem : ∀ j ∈ (outlierPick rows.length r).1, j < rows.length := fun j hj =>
    List.mem_range.mp
      (sampleNoReplace_subset _ _ _ (by rw [hpool]; exact hle) j hj)
  have d1 : nOutliersOf rows.length / 2 = 2 * (nOutliersOf rows.length / 4) := by
    omega
  have d2 : 3 * nOutliersOf rows.length / 4 = 3 * (nOutliersOf rows.length / 4) := by
    omega
  have e1 : (sliceList 0 (nOutliersOf rows.length / 4) (outlierPick rows.length r).1) = ((outlierPick rows.length r).1.take (nOutliersOf rows.length / 4)) := by
    simp [sliceList]
  have e2 : (sliceList (nOutliersOf rows.length / 4) (nOutliersOf rows.length / 2) (outlierPick rows.length r).1) = (((outlierPick rows.length r).1.drop (nOutliersOf rows.length / 4)).take (nOutliersOf rows.length / 4)) := by
    simp only [sliceList]
    congr 1
    omega
  have e3 : (sliceList (nOutliersOf rows.length / 2) (3 * nOutliersOf rows.length / 4) (outlierPick rows.length r).1) = (((outlierPick rows.length r).1.drop (2 * (nOutliersOf rows.length / 4))).take (nOutliersOf rows.length / 4)) := by
    simp only [sliceList, d1, d2]
    congr 1
    omega
  have e4 : ((outlierPick rows.length r).1.drop (3 * nOutliersOf rows.length / 4)) = ((outlierPick rows.length r).1.drop (3 * (nOutliersOf rows.length / 4))) := by
    rw [d2]
  have hlen4 : (outlierPick rows.length r).1.length = 4 * (nOutliersOf rows.length / 4) := by
    rw [hlenIdx]
    omega
  have hA1 : (sliceList 0 (nOutliersOf rows.length / 4) (outlierPick rows.length r).1).length = (choiceN weightOutlierVals 0 (nOutliersOf rows.length / 4) (outlierPick rows.length r).2).1.length := by
    rw [choiceN_length, e1, List.length_take]
    omega
  have hA2 : (sliceList (nOutliersOf rows.length / 4) (nOutliersOf rows.length / 2) (outlierPick rows.length r).1).length = (choiceN heightOutlierVals 0 (nOutliersOf rows.length / 4) (choiceN weightOutlierVals 0 (nOutliersOf rows.length / 4) (outlierPick rows.length r).2).2).1.length := by
    rw [choiceN_length, e2, List.length_take, List.length_drop]
    omega
  have hA3 : (sliceList (nOutliersOf rows.length / 2) (3 * nOutliersOf rows.length / 4) (outlierPick rows.length r).1).length = (choiceN bellyOutlierVals 0 (nOutliersOf rows.length / 4) (choiceN heightOutlierVals 0 (nOutliersOf rows.length / 4) (choiceN weightOutlierVals 0 (nOutliersOf rows.length / 4) (outlierPick rows.length r).2).2).2).1.length := by
    rw [choiceN_length, e3, List.length_take, List.length_drop]
    omega
  have hA4 : ((outlierPick rows.length r).1.drop (3 * nOutliersOf rows.length / 4)).length = (choiceN ageOutlierVals 0 (nOutliersOf rows.length / 4) (choiceN bellyOutlierVals 0 (nOutliersOf rows.length / 4) (choiceN heightOutlierVals 0 (nOutliersOf rows.length / 4) (choiceN weightOutlierVals 0 (nOutliersOf rows.length / 4) (outlierPick rows.length r).2).2).2).2).1.length := by
    rw [choiceN_length, e4, List.length_drop]
    omega
  obtain ⟨hlenO, huntouched, hcover, hq1, hq2, hq3, hq4⟩ :=
    fourPass_spec rows (outlierPick rows.length r).1 (nOutliersOf rows.length / 4)
      (choiceN weightOutlierVals 0 (nOutliersOf rows.length / 4) (outlierPick rows.length r).2).1 (choiceN heightOutlierVals 0 (nOutliersOf rows.length / 4) (choiceN weightOutlierVals 0 (nOutliersOf rows.length / 4) (outlierPick rows.length r).2).2).1 (choiceN bellyOutlierVals 0 (nOutliersOf rows.length / 4) (choiceN heightOutlierVals 0 (nOutliersOf rows.length / 4) (choiceN weightOutlierVals 0 (nOutliersOf rows.length / 4) (outlierPick rows.length r).2).2).2).1 (choiceN ageOutlierVals 0 (nOutliersOf rows.length / 4) (choiceN bellyOutlierVals 0 (nOutliersOf rows.length / 4) (choiceN heightOutlierVals 0 (nOutliersOf rows.length / 4) (choiceN weightOutlierVals 0 (nOutliersOf rows.length / 4) (outlierPick rows.length r).2).2).2).2).1 hlen4 hnodup hmem
      (choiceN_length _ _ _ _) (choiceN_length _ _ _ _)
      (choiceN_length _ _ _ _) (choiceN_length _ _ _ _)
      (writeCells setAgeVal (writeCells setBellyVal (writeCells setHeightVal (writeCells setWeightVal rows ((outlierPick rows.length r).1.take (nOutliersOf rows.length / 4)) (choiceN weightOutlierVals 0 (nOutliersOf rows.length / 4) (outlierPick rows.length r).2).1) (((outlierPick rows.length r).1.drop (nOutliersOf rows.length / 4)).take (nOutliersOf rows.length / 4)) (choiceN heightOutlierVals 0 (nOutliersOf rows.length / 4) (choiceN weightOutlierVals 0 (nOutliersOf rows.length / 4) (outlierPick rows.length r).2).2).1) (((outlierPick rows.length r).1.drop (2 * (nOutliersOf rows.length / 4))).take (nOutliersOf rows.length / 4)) (choiceN bellyOutlierVals 0 (nOutliersOf rows.length / 4) (choiceN heightOutlierVals 0 (nOutliersOf rows.length / 4) (choiceN weightOutlierVals 0 (nOutliersOf rows.length / 4) (outlierPick rows.length r).2).2).2).1) ((outlierPick rows.length r).1.drop (3 * (nOutliersOf rows.length / 4))) (choiceN ageOutlierVals 0 (nOutliersOf rows.length / 4) (choiceN bellyOutlierVals 0 (nOutliersOf rows.length / 4) (choiceN heightOutlierVals 0 (nOutliersOf rows.length / 4) (choiceN weightOutlierVals 0 (nOutliersOf rows.length / 4) (outlierPick rows.length r).2).2).2).2).1) rfl
  refine ⟨_, (choiceN ageOutlierVals 0 (nOutliersOf rows.length / 4) (choiceN bellyOutlierVals 0 (nOutliersOf rows.length / 4) (choiceN heightOutlierVals 0 (nOutliersOf rows.length / 4) (choiceN weightOutlierVals 0 (nOutliersOf rows.length / 4) (outlierPick rows.length r).2).2).2).2).2, ?_, hlenO, hnodup, hlenIdx, hmem, huntouched, ?_, ?_, ?_, ?_, ?_⟩
  · simp only [injectOutliers]
    rw [assignColumn_eq_ok _ _ _ _ hA1]
    simp only [bind, Except.bind]
    rw [assignColumn_eq_ok _ _ _ _ hA2]
    simp only [bind, Except.bind]
    rw [assignColumn_eq_ok _ _ _ _ hA3]
    simp only [bind, Except.bind]
    rw [assignColumn_eq_ok _ _ _ _ hA4]
    simp only [bind, Except.bind, pure, Except.pure]
    rw [e1, e2, e3, e4]
  · simp only [outlierSlices]
    rw [e1, e2, e3, e4]
    exact hcover
  · intro j hj
    simp only [outlierSlices] at hj
    rw [e1] at hj
    obtain ⟨v, hv, hres⟩ := hq1 j hj
    exact ⟨v, choiceN_mem _ _ (by simp [weightOutlierVals]) _ _ v hv, hres⟩
  · intro j hj
    simp only [outlierSlices] at hj
    rw [e2] at hj
    obtain ⟨v, hv, hres⟩ := hq2 j hj
    exact ⟨v, choiceN_mem _ _ (by simp [heightOutlierVals]) _ _ v hv, hres⟩
  · intro j hj
    simp only [outlierSlices] at hj
    rw [e3] at hj
    obtain ⟨v, hv, hres⟩ := hq3 j hj
    exact ⟨v, choiceN_mem _ _ (by simp [bellyOutlierVals]) _ _ v hv, hres⟩
  · intro j hj
    simp only [outlierSlices] at hj
    rw [e4] at hj
    obtain ⟨v, hv, hres⟩ := hq4 j hj
    exact ⟨v, choiceN_mem _ _ (by simp [ageOutlierVals]) _ _ v hv, hres⟩

set_option maxRecDepth 4000 in
/-- Witness for C3 amended at N = 200 (outlier count 4, divisible by 4). -/
theorem injectOutliers_mod4_spec_witness :
    nOutliersOf (cRows 200).length % 4 = 0 ∧
      ∃ out rng2,
        injectOutliers (cRows 200).length (cRows 200) (npSeed 42) =
          .ok (out, rng2) ∧
        out.length = (cRows 200).length ∧
        (outlierPick (cRows 200).length (npSeed 42)).1.Nodup ∧
        (outlierPick (cRows 200).length (npSeed 42)).1.length =
          nOutliersOf (cRows 200).length ∧
        (∀ j ∈ (outlierPick (cRows 200).length (npSeed 42)).1,
          j < (cRows 200).length) ∧
        (∀ j : Nat, j ∉ (outlierPick (cRows 200).length (npSeed 42)).1 →
          out.getD j dRow = (cRows 200).getD j dRow) ∧
        ((outlierSlices (cRows 200).length (npSeed 42)).1 ++
          (outlierSlices (cRows 200).length (npSeed 42)).2.1 ++
          (outlierSlices (cRows 200).length (npSeed 42)).2.2.1 ++
          (outlierSlices (cRows 200).length (npSeed 42)).2.2.2 =
          (outlierPick (cRows 200).length (npSeed 42)).1) ∧
        (∀ j ∈ (outlierSlices (cRows 200).length (npSeed 42)).1,
          ∃ v ∈ weightOutlierVals,
            out.getD j dRow = setWeightVal ((cRows 200).getD j dRow) v) ∧
        (∀ j ∈ (outlierSlices (cRows 200).length (npSeed 42)).2.1,
          ∃ v ∈ heightOutlierVals,
            out.getD j dRow = setHeightVal ((cRows 200).getD j dRow) v) ∧
        (∀ j ∈ (outlierSlices (cRows 200).length (npSeed 42)).2.2.1,
          ∃ v ∈ bellyOutlierVals,
            out.getD j dRow = setBellyVal ((cRows 200).getD j dRow) v) ∧
        (∀ j ∈ (outlierSlices (cRows 200).length (npSeed 42)).2.2.2,
          ∃ v ∈ ageOutlierVals,
            out.getD j dRow = setAgeVal ((cRows 200).getD j dRow) v) :=
  ⟨by decide, injectOutliers_mod4_spec (cRows 200) (npSeed 42) (by decide)⟩
